import Mathlib

/-!
Verification of the section-layout resolver and entry decoders of
`ultimate_data_arc_parser` (`src/lib.rs`), embedded shallowly.

Bytes are modelled as `List Nat` (each element a byte value, `< 256` where a
theorem needs it).  Rust slices `&buf[n..]` are modelled by `List.drop`
guarded by the bounds check Rust performs before indexing; a failed bounds
check is a Rust panic, which aborts the process rather than returning an
error value.  Fallible operations return `Except ParseFailure`, whose two
constructors keep a Rust panic distinct from an error value that the code
returns to its caller with the question-mark operator.
-/

/-- Little-endian value of a byte list: byte 0 is least significant. -/
def leNat : List Nat → Nat
  | [] => 0
  | b :: rest => b + 256 * leNat rest

/-- Little-endian u16 read at `off` (models `LittleEndian::read_u16`). -/
def readU16 (data : List Nat) (off : Nat) : Nat :=
  leNat ((data.drop off).take 2)

/-- Little-endian u32 read at `off` (models `LittleEndian::read_u32`). -/
def readU32 (data : List Nat) (off : Nat) : Nat :=
  leNat ((data.drop off).take 4)

/-- Little-endian u64 read at `off` (models `LittleEndian::read_u64`). -/
def readU64 (data : List Nat) (off : Nat) : Nat :=
  leNat ((data.drop off).take 8)

/-- Single byte read at `off`, assuming the caller has bounds-checked. -/
def readU8 (data : List Nat) (off : Nat) : Nat :=
  data.getD off 0

/-- How a parsing step can fail.  `panicked` models a Rust panic (slice index
out of range, arithmetic overflow, an unimplemented branch): the process
aborts and no error value is returned.  `err` models an error value that is
returned to the caller and propagated with the question-mark operator. -/
inductive ParseFailure
  | panicked (msg : String)
  | err (msg : String)
  deriving DecidableEq, Repr

/-- Models Rust `&s[n..]` on a slice: bounds-checked suffix.  Rust checks
`n <= s.len()` before forming the suffix and panics otherwise, so no
out-of-bounds memory access ever happens. -/
def sliceSuffix (s : List Nat) (n : Nat) : Except ParseFailure (List Nat) :=
  if n ≤ s.length then .ok (s.drop n)
  else .error (.panicked "range start index out of range")

/-- Models `Read::read_exact` into a buffer of length `n` after seeking to
absolute position `pos`: yields exactly `n` bytes or an I/O error. -/
def readExact (file : List Nat) (pos n : Nat) : Except ParseFailure (List Nat) :=
  if pos + n ≤ file.length then .ok ((file.drop pos).take n)
  else .error (.err "failed to fill whole buffer")

/-- Models debug-profile `usize` subtraction `a - b`: panics on underflow.
(A release build would instead wrap; either way no error value is
returned to the caller.) -/
def usizeSub (a b : Nat) : Except ParseFailure Nat :=
  if b ≤ a then .ok (a - b)
  else .error (.panicked "attempt to subtract with overflow")

/-- Models `byteorder` reads such as `LittleEndian::read_u32(&data)`, which
panic when the slice is shorter than the integer width. -/
def byteorderU32 (data : List Nat) : Except ParseFailure Nat :=
  if 4 ≤ data.length then .ok (readU32 data 0)
  else .error (.panicked "index out of range")

/-- Models `byteorder` `LittleEndian::read_u16` on a slice. -/
def byteorderU16 (data : List Nat) : Except ParseFailure Nat :=
  if 2 ≤ data.length then .ok (readU16 data 0)
  else .error (.panicked "index out of range")

/-- Models a direct byte index `data[i]`, which panics when out of range. -/
def indexByte (data : List Nat) (i : Nat) : Except ParseFailure Nat :=
  if i < data.length then .ok (data.getD i 0)
  else .error (.panicked "index out of range")

abbrev ARC_HEADER_SIZE : Nat := 0x28
abbrev COMPRESSED_NODE_HEADER_SIZE : Nat := 0x10
abbrev NODE_HEADER_SIZE : Nat := 0x44
abbrev ENTRY_TRIPLET_SIZE : Nat := 0xc
abbrev ENTRY_PAIR_SIZE : Nat := 0x8
abbrev BIG_HASH_ENTRY_SIZE : Nat := 0x34
abbrev TREE_ENTRY_SIZE : Nat := 0x28
abbrev FILE_PAIR_SIZE : Nat := 0x10
abbrev BIG_FILE_ENTRY_SIZE : Nat := 0x1c
abbrev FILE_ENTRY_SIZE : Nat := 0x10
abbrev HASH_BUCKET_SIZE : Nat := 0x08

/-- `ArcHeader`: five u64 archive-file offsets, read at file offset 8. -/
structure ArcHeader where
  music_file_section_offset : Nat
  file_section_offset : Nat
  music_section_offset : Nat
  node_section_offset : Nat
  unk_section_offset : Nat
  deriving DecidableEq, Repr

/-- `CompressedNodeHeader`: the 16-byte probe at the node-section offset. -/
structure CompressedNodeHeader where
  data_start : Nat
  decomp_size : Nat
  comp_size : Nat
  zstd_comp_size : Nat
  deriving DecidableEq, Repr

/-- `NodeHeader`: the 68-byte raw node-section sub-header with the sixteen
count fields (plus auxiliary fields) that size every later section. -/
structure NodeHeader where
  file_size : Nat
  folder_count : Nat
  file_count1 : Nat
  tree_count : Nat
  sub_files1_count : Nat
  file_lookup_count : Nat
  hash_folder_count : Nat
  file_information_count : Nat
  file_count2 : Nat
  sub_files2_count : Nat
  unk1 : Nat
  unk2 : Nat
  another_hash_table_size : Nat
  unk3 : Nat
  unk4 : Nat
  movie_count : Nat
  part1_count : Nat
  part2_count : Nat
  music_file_count : Nat
  deriving DecidableEq, Repr

/-- `EntryTriplet`: 40-bit hash, 24-bit meta, 32-bit meta2. -/
structure EntryTriplet where
  hash : Nat
  meta : Nat
  meta2 : Nat
  deriving DecidableEq, Repr

/-- `EntryPair`: 40-bit hash, 24-bit meta. -/
structure EntryPair where
  hash : Nat
  meta : Nat
  deriving DecidableEq, Repr

/-- `BigHashEntry`: four pairs plus numeric fields (52 bytes). -/
structure BigHashEntry where
  path : EntryPair
  folder : EntryPair
  parent : EntryPair
  hash4 : EntryPair
  suboffset_start : Nat
  num_files : Nat
  unk3 : Nat
  unk4 : Nat
  unk5 : Nat
  unk6 : Nat
  unk7 : Nat
  unk8 : Nat
  unk9 : Nat
  deriving DecidableEq, Repr

/-- `TreeEntry`: four pairs plus suboffset index and flags (40 bytes). -/
structure TreeEntry where
  path : EntryPair
  ext : EntryPair
  folder : EntryPair
  file : EntryPair
  suboffset_index : Nat
  flags : Nat
  deriving DecidableEq, Repr

/-- `FilePair`: 64-bit size and offset (16 bytes). -/
structure FilePair where
  size : Nat
  offset : Nat
  deriving DecidableEq, Repr

/-- `BigFileEntry`: 28-byte record. -/
structure BigFileEntry where
  offset : Nat
  decomp_size : Nat
  comp_size : Nat
  suboffset_index : Nat
  files : Nat
  unk3 : Nat
  deriving DecidableEq, Repr

/-- `FileEntry`: 16-byte record of four u32 fields. -/
structure FileEntry where
  offset : Nat
  comp_size : Nat
  decomp_size : Nat
  flags : Nat
  deriving DecidableEq, Repr

/-- `HashBucket`: 8-byte record (`index`, `num_entries`). -/
structure HashBucket where
  index : Nat
  num_entries : Nat
  deriving DecidableEq, Repr

/-- Models `read_pair`: panicking direct indexing of `data[0]`..`data[7]`,
hash from the first 5 bytes zero-padded to 8, meta from bytes 5..8
zero-padded to 4 (source lines 103-107). -/
def read_pair (data : List Nat) : Except ParseFailure EntryPair :=
  if 8 ≤ data.length then
    .ok { hash := leNat [data.getD 0 0, data.getD 1 0, data.getD 2 0,
                         data.getD 3 0, data.getD 4 0, 0, 0, 0],
          meta := leNat [data.getD 5 0, data.getD 6 0, data.getD 7 0, 0] }
  else .error (.panicked "index out of range")

/-- Models `read_triplet` (source lines 89-94): like `read_pair` plus a u32
`meta2` read from the suffix `&data[0x8..]` via `byteorder`. -/
def read_triplet (data : List Nat) : Except ParseFailure EntryTriplet :=
  if 12 ≤ data.length then
    .ok { hash := leNat [data.getD 0 0, data.getD 1 0, data.getD 2 0,
                         data.getD 3 0, data.getD 4 0, 0, 0, 0],
          meta := leNat [data.getD 5 0, data.getD 6 0, data.getD 7 0, 0],
          meta2 := readU32 data 8 }
  else .error (.panicked "index out of range")

/-- Models `read_big_hash_entry` (source lines 127-143): composed from
panicking `read_pair` and `byteorder` reads on suffix slices. -/
def read_big_hash_entry (data : List Nat) : Except ParseFailure BigHashEntry :=
  Except.bind (read_pair data) fun path =>
  Except.bind (read_pair (data.drop 0x08)) fun folder =>
  Except.bind (read_pair (data.drop 0x10)) fun parent =>
  Except.bind (read_pair (data.drop 0x18)) fun hash4 =>
  Except.bind (byteorderU32 (data.drop 0x20)) fun suboffset_start =>
  Except.bind (byteorderU32 (data.drop 0x24)) fun num_files =>
  Except.bind (byteorderU32 (data.drop 0x28)) fun unk3 =>
  Except.bind (byteorderU16 (data.drop 0x2c)) fun unk4 =>
  Except.bind (byteorderU16 (data.drop 0x2e)) fun unk5 =>
  Except.bind (indexByte data 0x30) fun unk6 =>
  Except.bind (indexByte data 0x31) fun unk7 =>
  Except.bind (indexByte data 0x32) fun unk8 =>
  Except.bind (indexByte data 0x33) fun unk9 =>
  .ok { path, folder, parent, hash4, suboffset_start, num_files,
        unk3, unk4, unk5, unk6, unk7, unk8, unk9 }

/-- Models `read_tree_entry` (source lines 156-165). -/
def read_tree_entry (data : List Nat) : Except ParseFailure TreeEntry :=
  Except.bind (read_pair data) fun path =>
  Except.bind (read_pair (data.drop 0x08)) fun ext =>
  Except.bind (read_pair (data.drop 0x10)) fun folder =>
  Except.bind (read_pair (data.drop 0x18)) fun file =>
  Except.bind (byteorderU32 (data.drop 0x20)) fun suboffset_index =>
  Except.bind (byteorderU32 (data.drop 0x24)) fun flags =>
  .ok { path, ext, folder, file, suboffset_index, flags }

/-- Models `pread_with::<ArcHeader>`: scroll returns an error value (not a
panic) when the buffer is too short for the derived struct. -/
def pread_arc_header (data : List Nat) : Except ParseFailure ArcHeader :=
  if ARC_HEADER_SIZE ≤ data.length then
    .ok { music_file_section_offset := readU64 data 0x00,
          file_section_offset := readU64 data 0x08,
          music_section_offset := readU64 data 0x10,
          node_section_offset := readU64 data 0x18,
          unk_section_offset := readU64 data 0x20 }
  else .error (.err "pread: input too short")

/-- Models `pread_with::<CompressedNodeHeader>`. -/
def pread_compressed_node_header (data : List Nat) :
    Except ParseFailure CompressedNodeHeader :=
  if COMPRESSED_NODE_HEADER_SIZE ≤ data.length then
    .ok { data_start := readU32 data 0x0,
          decomp_size := readU32 data 0x4,
          comp_size := readU32 data 0x8,
          zstd_comp_size := readU32 data 0xc }
  else .error (.err "pread: input too short")

/-- Models `pread_with::<NodeHeader>`: sixteen u32 counts plus two u8 and one
u16 auxiliary fields in declaration order (68 bytes). -/
def pread_node_header (data : List Nat) : Except ParseFailure NodeHeader :=
  if NODE_HEADER_SIZE ≤ data.length then
    .ok { file_size := readU32 data 0x00,
          folder_count := readU32 data 0x04,
          file_count1 := readU32 data 0x08,
          tree_count := readU32 data 0x0c,
          sub_files1_count := readU32 data 0x10,
          file_lookup_count := readU32 data 0x14,
          hash_folder_count := readU32 data 0x18,
          file_information_count := readU32 data 0x1c,
          file_count2 := readU32 data 0x20,
          sub_files2_count := readU32 data 0x24,
          unk1 := readU32 data 0x28,
          unk2 := readU32 data 0x2c,
          another_hash_table_size := readU8 data 0x30,
          unk3 := readU8 data 0x31,
          unk4 := readU16 data 0x32,
          movie_count := readU32 data 0x34,
          part1_count := readU32 data 0x38,
          part2_count := readU32 data 0x3c,
          music_file_count := readU32 data 0x40 }
  else .error (.err "pread: input too short")

/-- Models `pread_with::<FilePair>`. -/
def pread_file_pair (data : List Nat) : Except ParseFailure FilePair :=
  if FILE_PAIR_SIZE ≤ data.length then
    .ok { size := readU64 data 0x0, offset := readU64 data 0x8 }
  else .error (.err "pread: input too short")

/-- Models `pread_with::<BigFileEntry>`. -/
def pread_big_file_entry (data : List Nat) : Except ParseFailure BigFileEntry :=
  if BIG_FILE_ENTRY_SIZE ≤ data.length then
    .ok { offset := readU64 data 0x0,
          decomp_size := readU32 data 0x8,
          comp_size := readU32 data 0xc,
          suboffset_index := readU32 data 0x10,
          files := readU32 data 0x14,
          unk3 := readU32 data 0x18 }
  else .error (.err "pread: input too short")

/-- Models `pread_with::<FileEntry>`. -/
def pread_file_entry (data : List Nat) : Except ParseFailure FileEntry :=
  if FILE_ENTRY_SIZE ≤ data.length then
    .ok { offset := readU32 data 0x0,
          comp_size := readU32 data 0x4,
          decomp_size := readU32 data 0x8,
          flags := readU32 data 0xc }
  else .error (.err "pread: input too short")

/-- Models `pread_with::<HashBucket>`. -/
def pread_hash_bucket (data : List Nat) : Except ParseFailure HashBucket :=
  if HASH_BUCKET_SIZE ≤ data.length then
    .ok { index := readU32 data 0x0, num_entries := readU32 data 0x4 }
  else .error (.err "pread: input too short")

/-- The fourteen suffix views computed by the header-driven walk of
`internal_parse` (source lines 230-243): the thirteen sections of the fixed
table, in order, plus the start of the `file_lookup_buckets` region. -/
structure SectionViews where
  bulkfile_category_info : List Nat
  bulkfile_hash_lookup : List Nat
  bulkfiles_by_name : List Nat
  bulkfile_lookup_to_fileidx : List Nat
  file_pairs : List Nat
  another_hash_table : List Nat
  big_hashes : List Nat
  big_files : List Nat
  folder_hash_lookup : List Nat
  trees : List Nat
  sub_files1 : List Nat
  sub_files2 : List Nat
  folder_to_big_hash : List Nat
  file_lookup_buckets : List Nat
  deriving DecidableEq, Repr

/-- The full resolved layout: the header-driven views plus the `HashBucket`
read in place and the two data-driven trailing views (source lines 244-246). -/
structure ResolvedNode extends SectionViews where
  hash_bucket : HashBucket
  file_lookup : List Nat
  numbers : List Nat
  deriving DecidableEq, Repr

/-- The header-driven part of the section layout walk, one suffix slice per
section exactly as in source lines 230-243.  Each slice models
`&previous[entry_size * count..]` with the panicking bounds check Rust
performs on the range start. -/
def resolve13 (h : NodeHeader) (buffer : List Nat) :
    Except ParseFailure SectionViews :=
  let bulkfile_category_info := buffer
  Except.bind (sliceSuffix bulkfile_category_info (ENTRY_TRIPLET_SIZE * h.movie_count)) fun bulkfile_hash_lookup =>
  Except.bind (sliceSuffix bulkfile_hash_lookup (ENTRY_PAIR_SIZE * h.part1_count)) fun bulkfiles_by_name =>
  Except.bind (sliceSuffix bulkfiles_by_name (ENTRY_TRIPLET_SIZE * h.part1_count)) fun bulkfile_lookup_to_fileidx =>
  Except.bind (sliceSuffix bulkfile_lookup_to_fileidx (4 * h.part2_count)) fun file_pairs =>
  Except.bind (sliceSuffix file_pairs (FILE_PAIR_SIZE * h.music_file_count)) fun another_hash_table =>
  Except.bind (sliceSuffix another_hash_table (ENTRY_TRIPLET_SIZE * h.another_hash_table_size)) fun big_hashes =>
  Except.bind (sliceSuffix big_hashes (BIG_HASH_ENTRY_SIZE * h.folder_count)) fun big_files =>
  Except.bind (sliceSuffix big_files (BIG_FILE_ENTRY_SIZE * (h.file_count1 + h.file_count2))) fun folder_hash_lookup =>
  Except.bind (sliceSuffix folder_hash_lookup (ENTRY_PAIR_SIZE * h.hash_folder_count)) fun trees =>
  Except.bind (sliceSuffix trees (TREE_ENTRY_SIZE * h.tree_count)) fun sub_files1 =>
  Except.bind (sliceSuffix sub_files1 (FILE_ENTRY_SIZE * h.sub_files1_count)) fun sub_files2 =>
  Except.bind (sliceSuffix sub_files2 (FILE_ENTRY_SIZE * h.sub_files2_count)) fun folder_to_big_hash =>
  Except.bind (sliceSuffix folder_to_big_hash (ENTRY_PAIR_SIZE * h.folder_count)) fun file_lookup_buckets =>
  .ok { bulkfile_category_info, bulkfile_hash_lookup, bulkfiles_by_name,
        bulkfile_lookup_to_fileidx, file_pairs, another_hash_table,
        big_hashes, big_files, folder_hash_lookup, trees,
        sub_files1, sub_files2, folder_to_big_hash, file_lookup_buckets }

/-- The full section layout walk (source lines 230-246): the header-driven
views, then the `HashBucket` read in place at the start of
`file_lookup_buckets` with scroll `pread` (an error value on short input),
then the two data-driven suffix slices `file_lookup` and `numbers`. -/
def resolve (h : NodeHeader) (buffer : List Nat) :
    Except ParseFailure ResolvedNode :=
  Except.bind (resolve13 h buffer) fun s =>
  Except.bind (pread_hash_bucket s.file_lookup_buckets) fun hash_bucket =>
  Except.bind (sliceSuffix s.file_lookup_buckets (HASH_BUCKET_SIZE * (hash_bucket.num_entries + 1))) fun file_lookup =>
  Except.bind (sliceSuffix file_lookup (ENTRY_PAIR_SIZE * h.file_lookup_count)) fun numbers =>
  .ok { toSectionViews := s, hash_bucket, file_lookup, numbers }

/-- Models the raw-node branch of `internal_parse` (source lines 217-224):
re-seek to the node-section offset, read the 68-byte `NodeHeader`, then read
`file_size - 68` further bytes as the node-section buffer.  The subtraction
is an unchecked `usize` subtraction in the source. -/
def read_raw_node (file : List Nat) (node_section_offset : Nat) :
    Except ParseFailure (NodeHeader × List Nat) :=
  Except.bind (readExact file node_section_offset NODE_HEADER_SIZE) fun hdrBytes =>
  Except.bind (pread_node_header hdrBytes) fun node_header =>
  Except.bind (usizeSub node_header.file_size NODE_HEADER_SIZE) fun bufLen =>
  Except.bind (readExact file (node_section_offset + NODE_HEADER_SIZE) bufLen) fun buffer =>
  .ok (node_header, buffer)

/-- Models the decoding work of the debug prints at the end of
`internal_parse` (source lines 251-271): the first entry of every resolved
section is decoded in order; printing itself is elided, but a panic or error
of any decode step is the result of `internal_parse`. -/
def decode_first_entries (s : ResolvedNode) : Except ParseFailure Unit :=
  Except.bind (read_triplet s.bulkfile_category_info) fun _ =>
  Except.bind (read_pair s.bulkfile_hash_lookup) fun _ =>
  Except.bind (read_triplet s.bulkfiles_by_name) fun _ =>
  Except.bind (byteorderU32 s.bulkfile_lookup_to_fileidx) fun _ =>
  Except.bind (pread_file_pair s.file_pairs) fun _ =>
  Except.bind (read_triplet s.another_hash_table) fun _ =>
  Except.bind (read_big_hash_entry s.big_hashes) fun _ =>
  Except.bind (pread_big_file_entry s.big_files) fun _ =>
  Except.bind (read_pair s.folder_hash_lookup) fun _ =>
  Except.bind (read_tree_entry s.trees) fun _ =>
  Except.bind (pread_file_entry s.sub_files1) fun _ =>
  Except.bind (pread_file_entry s.sub_files2) fun _ =>
  Except.bind (read_pair s.folder_to_big_hash) fun _ =>
  Except.bind (pread_hash_bucket s.file_lookup_buckets) fun _ =>
  Except.bind (read_pair s.file_lookup) fun _ =>
  Except.bind (read_pair s.numbers) fun _ =>
  .ok ()

/-- Models `internal_parse` (source lines 201-274), entered with the stream
cursor at absolute position 8 (just past the magic number): read the
40-byte `ArcHeader`, seek to the node-section offset, probe 16 bytes as
`CompressedNodeHeader`; when `data_start < 0x100` the source hits
an unimplemented branch and panics, otherwise the raw node header and
buffer are read, the section layout is resolved, and the first entry of
each section is decoded for the debug prints. -/
def internal_parse (file : List Nat) : Except ParseFailure Unit :=
  Except.bind (readExact file 8 ARC_HEADER_SIZE) fun arcBytes =>
  Except.bind (pread_arc_header arcBytes) fun header =>
  Except.bind (readExact file header.node_section_offset COMPRESSED_NODE_HEADER_SIZE) fun probeBytes =>
  Except.bind (pread_compressed_node_header probeBytes) fun compressed =>
  Except.bind (if compressed.data_start < 0x100
               then .error (.panicked "not implemented")
               else read_raw_node file header.node_section_offset) fun nodeAndBuffer =>
  Except.bind (resolve nodeAndBuffer.1 nodeAndBuffer.2) fun s =>
  decode_first_entries s

/-- Outcome of a call to `parse`, separating the two error values of the
source `ParseError` type from a process-aborting panic. -/
inductive ParseOutcome
  | ok
  | notDataArc
  | internalError (msg : String)
  | panicked (msg : String)
  deriving DecidableEq, Repr

/-- Models `parse` (source lines 22-32): read the first 8 bytes as a
little-endian u64; when that read fails or the value is not the magic
constant, return `NotDataArc` without touching the rest of the stream;
otherwise run `internal_parse` and classify its failure as an internal
error, panics excepted. -/
def parse (file : List Nat) : ParseOutcome :=
  if 8 ≤ file.length ∧ leNat (file.take 8) = 0xabcdef9876543210 then
    match internal_parse file with
    | .ok _ => .ok
    | .error (.err m) => .internalError m
    | .error (.panicked m) => .panicked m
  else .notDataArc

/-- Total byte length of the thirteen header-driven sections, per the
spec table in section 4.3: entry size times count field, summed in order. -/
def sectionTotal (h : NodeHeader) : Nat :=
  12 * h.movie_count + 8 * h.part1_count + 12 * h.part1_count +
  4 * h.part2_count + 16 * h.music_file_count +
  12 * h.another_hash_table_size + 52 * h.folder_count +
  28 * (h.file_count1 + h.file_count2) + 8 * h.hash_folder_count +
  40 * h.tree_count + 16 * h.sub_files1_count + 16 * h.sub_files2_count +
  8 * h.folder_count

/-- Closed form of the fourteen suffix views: each view starts at the
cumulative sum of the preceding section lengths and runs to the end of the
buffer. -/
def layout13 (h : NodeHeader) (buffer : List Nat) : SectionViews :=
  { bulkfile_category_info := buffer,
    bulkfile_hash_lookup := buffer.drop (12 * h.movie_count),
    bulkfiles_by_name := buffer.drop (12 * h.movie_count + 8 * h.part1_count),
    bulkfile_lookup_to_fileidx := buffer.drop (12 * h.movie_count + 8 * h.part1_count + 12 * h.part1_count),
    file_pairs := buffer.drop (12 * h.movie_count + 8 * h.part1_count + 12 * h.part1_count + 4 * h.part2_count),
    another_hash_table := buffer.drop (12 * h.movie_count + 8 * h.part1_count + 12 * h.part1_count + 4 * h.part2_count + 16 * h.music_file_count),
    big_hashes := buffer.drop (12 * h.movie_count + 8 * h.part1_count + 12 * h.part1_count + 4 * h.part2_count + 16 * h.music_file_count + 12 * h.another_hash_table_size),
    big_files := buffer.drop (12 * h.movie_count + 8 * h.part1_count + 12 * h.part1_count + 4 * h.part2_count + 16 * h.music_file_count + 12 * h.another_hash_table_size + 52 * h.folder_count),
    folder_hash_lookup := buffer.drop (12 * h.movie_count + 8 * h.part1_count + 12 * h.part1_count + 4 * h.part2_count + 16 * h.music_file_count + 12 * h.another_hash_table_size + 52 * h.folder_count + 28 * (h.file_count1 + h.file_count2)),
    trees := buffer.drop (12 * h.movie_count + 8 * h.part1_count + 12 * h.part1_count + 4 * h.part2_count + 16 * h.music_file_count + 12 * h.another_hash_table_size + 52 * h.folder_count + 28 * (h.file_count1 + h.file_count2) + 8 * h.hash_folder_count),
    sub_files1 := buffer.drop (12 * h.movie_count + 8 * h.part1_count + 12 * h.part1_count + 4 * h.part2_count + 16 * h.music_file_count + 12 * h.another_hash_table_size + 52 * h.folder_count + 28 * (h.file_count1 + h.file_count2) + 8 * h.hash_folder_count + 40 * h.tree_count),
    sub_files2 := buffer.drop (12 * h.movie_count + 8 * h.part1_count + 12 * h.part1_count + 4 * h.part2_count + 16 * h.music_file_count + 12 * h.another_hash_table_size + 52 * h.folder_count + 28 * (h.file_count1 + h.file_count2) + 8 * h.hash_folder_count + 40 * h.tree_count + 16 * h.sub_files1_count),
    folder_to_big_hash := buffer.drop (12 * h.movie_count + 8 * h.part1_count + 12 * h.part1_count + 4 * h.part2_count + 16 * h.music_file_count + 12 * h.another_hash_table_size + 52 * h.folder_count + 28 * (h.file_count1 + h.file_count2) + 8 * h.hash_folder_count + 40 * h.tree_count + 16 * h.sub_files1_count + 16 * h.sub_files2_count),
    file_lookup_buckets := buffer.drop (12 * h.movie_count + 8 * h.part1_count + 12 * h.part1_count + 4 * h.part2_count + 16 * h.music_file_count + 12 * h.another_hash_table_size + 52 * h.folder_count + 28 * (h.file_count1 + h.file_count2) + 8 * h.hash_folder_count + 40 * h.tree_count + 16 * h.sub_files1_count + 16 * h.sub_files2_count + 8 * h.folder_count) }

lemma sliceSuffix_drop (buffer : List Nat) (a n : Nat) (h : a + n ≤ buffer.length) :
    sliceSuffix (buffer.drop a) n = .ok (buffer.drop (a + n)) := by
  unfold sliceSuffix
  rw [if_pos (by simp only [List.length_drop]; omega)]
  rw [List.drop_drop]

lemma sliceSuffix_drop_err (buffer : List Nat) (a n : Nat) (ha : a ≤ buffer.length)
    (h : buffer.length < a + n) :
    sliceSuffix (buffer.drop a) n =
      .error (.panicked "range start index out of range") := by
  unfold sliceSuffix
  rw [if_neg (by simp only [List.length_drop]; omega)]

lemma resolve13_ok_of (h : NodeHeader) (buffer : List Nat)
    (hlen : sectionTotal h ≤ buffer.length) :
    resolve13 h buffer = .ok (layout13 h buffer) := by
  simp only [sectionTotal] at hlen
  have e1 : sliceSuffix buffer (ENTRY_TRIPLET_SIZE * h.movie_count) =
      .ok (buffer.drop (12 * h.movie_count)) := by
    unfold sliceSuffix
    rw [if_pos (by simp only [ENTRY_TRIPLET_SIZE]; omega)]
  have e2 : sliceSuffix (buffer.drop (12 * h.movie_count)) (ENTRY_PAIR_SIZE * h.part1_count) =
      .ok (buffer.drop (12 * h.movie_count + 8 * h.part1_count)) :=
    sliceSuffix_drop buffer _ (8 * h.part1_count) (by omega)
  have e3 : sliceSuffix (buffer.drop (12 * h.movie_count + 8 * h.part1_count)) (ENTRY_TRIPLET_SIZE * h.part1_count) =
      .ok (buffer.drop (12 * h.movie_count + 8 * h.part1_count + 12 * h.part1_count)) :=
    sliceSuffix_drop buffer _ (12 * h.part1_count) (by omega)
  have e4 : sliceSuffix (buffer.drop (12 * h.movie_count + 8 * h.part1_count + 12 * h.part1_count)) (4 * h.part2_count) =
      .ok (buffer.drop (12 * h.movie_count + 8 * h.part1_count + 12 * h.part1_count + 4 * h.part2_count)) :=
    sliceSuffix_drop buffer _ (4 * h.part2_count) (by omega)
  have e5 : sliceSuffix (buffer.drop (12 * h.movie_count + 8 * h.part1_count + 12 * h.part1_count + 4 * h.part2_count)) (FILE_PAIR_SIZE * h.music_file_count) =
      .ok (buffer.drop (12 * h.movie_count + 8 * h.part1_count + 12 * h.part1_count + 4 * h.part2_count + 16 * h.music_file_count)) :=
    sliceSuffix_drop buffer _ (16 * h.music_file_count) (by omega)
  have e6 : sliceSuffix (buffer.drop (12 * h.movie_count + 8 * h.part1_count + 12 * h.part1_count + 4 * h.part2_count + 16 * h.music_file_count)) (ENTRY_TRIPLET_SIZE * h.another_hash_table_size) =
      .ok (buffer.drop (12 * h.movie_count + 8 * h.part1_count + 12 * h.part1_count + 4 * h.part2_count + 16 * h.music_file_count + 12 * h.another_hash_table_size)) :=
    sliceSuffix_drop buffer _ (12 * h.another_hash_table_size) (by omega)
  have e7 : sliceSuffix (buffer.drop (12 * h.movie_count + 8 * h.part1_count + 12 * h.part1_count + 4 * h.part2_count + 16 * h.music_file_count + 12 * h.another_hash_table_size)) (BIG_HASH_ENTRY_SIZE * h.folder_count) =
      .ok (buffer.drop (12 * h.movie_count + 8 * h.part1_count + 12 * h.part1_count + 4 * h.part2_count + 16 * h.music_file_count + 12 * h.another_hash_table_size + 52 * h.folder_count)) :=
    sliceSuffix_drop buffer _ (52 * h.folder_count) (by omega)
  have e8 : sliceSuffix (buffer.drop (12 * h.movie_count + 8 * h.part1_count + 12 * h.part1_count + 4 * h.part2_count + 16 * h.music_file_count + 12 * h.another_hash_table_size + 52 * h.folder_count)) (BIG_FILE_ENTRY_SIZE * (h.file_count1 + h.file_count2)) =
      .ok (buffer.drop (12 * h.movie_count + 8 * h.part1_count + 12 * h.part1_count + 4 * h.part2_count + 16 * h.music_file_count + 12 * h.another_hash_table_size + 52 * h.folder_count + 28 * (h.file_count1 + h.file_count2))) :=
    sliceSuffix_drop buffer _ (28 * (h.file_count1 + h.file_count2)) (by omega)
  have e9 : sliceSuffix (buffer.drop (12 * h.movie_count + 8 * h.part1_count + 12 * h.part1_count + 4 * h.part2_count + 16 * h.music_file_count + 12 * h.another_hash_table_size + 52 * h.folder_count + 28 * (h.file_count1 + h.file_count2))) (ENTRY_PAIR_SIZE * h.hash_folder_count) =
      .ok (buffer.drop (12 * h.movie_count + 8 * h.part1_count + 12 * h.part1_count + 4 * h.part2_count + 16 * h.music_file_count + 12 * h.another_hash_table_size + 52 * h.folder_count + 28 * (h.file_count1 + h.file_count2) + 8 * h.hash_folder_count)) :=
    sliceSuffix_drop buffer _ (8 * h.hash_folder_count) (by omega)
  have e10 : sliceSuffix (buffer.drop (12 * h.movie_count + 8 * h.part1_count + 12 * h.part1_count + 4 * h.part2_count + 16 * h.music_file_count + 12 * h.another_hash_table_size + 52 * h.folder_count + 28 * (h.file_count1 + h.file_count2) + 8 * h.hash_folder_count)) (TREE_ENTRY_SIZE * h.tree_count) =
      .ok (buffer.drop (12 * h.movie_count + 8 * h.part1_count + 12 * h.part1_count + 4 * h.part2_count + 16 * h.music_file_count + 12 * h.another_hash_table_size + 52 * h.folder_count + 28 * (h.file_count1 + h.file_count2) + 8 * h.hash_folder_count + 40 * h.tree_count)) :=
    sliceSuffix_drop buffer _ (40 * h.tree_count) (by omega)
  have e11 : sliceSuffix (buffer.drop (12 * h.movie_count + 8 * h.part1_count + 12 * h.part1_count + 4 * h.part2_count + 16 * h.music_file_count + 12 * h.another_hash_table_size + 52 * h.folder_count + 28 * (h.file_count1 + h.file_count2) + 8 * h.hash_folder_count + 40 * h.tree_count)) (FILE_ENTRY_SIZE * h.sub_files1_count) =
      .ok (buffer.drop (12 * h.movie_count + 8 * h.part1_count + 12 * h.part1_count + 4 * h.part2_count + 16 * h.music_file_count + 12 * h.another_hash_table_size + 52 * h.folder_count + 28 * (h.file_count1 + h.file_count2) + 8 * h.hash_folder_count + 40 * h.tree_count + 16 * h.sub_files1_count)) :=
    sliceSuffix_drop buffer _ (16 * h.sub_files1_count) (by omega)
  have e12 : sliceSuffix (buffer.drop (12 * h.movie_count + 8 * h.part1_count + 12 * h.part1_count + 4 * h.part2_count + 16 * h.music_file_count + 12 * h.another_hash_table_size + 52 * h.folder_count + 28 * (h.file_count1 + h.file_count2) + 8 * h.hash_folder_count + 40 * h.tree_count + 16 * h.sub_files1_count)) (FILE_ENTRY_SIZE * h.sub_files2_count) =
      .ok (buffer.drop (12 * h.movie_count + 8 * h.part1_count + 12 * h.part1_count + 4 * h.part2_count + 16 * h.music_file_count + 12 * h.another_hash_table_size + 52 * h.folder_count + 28 * (h.file_count1 + h.file_count2) + 8 * h.hash_folder_count + 40 * h.tree_count + 16 * h.sub_files1_count + 16 * h.sub_files2_count)) :=
    sliceSuffix_drop buffer _ (16 * h.sub_files2_count) (by omega)
  have e13 : sliceSuffix (buffer.drop (12 * h.movie_count + 8 * h.part1_count + 12 * h.part1_count + 4 * h.part2_count + 16 * h.music_file_count + 12 * h.another_hash_table_size + 52 * h.folder_count + 28 * (h.file_count1 + h.file_count2) + 8 * h.hash_folder_count + 40 * h.tree_count + 16 * h.sub_files1_count + 16 * h.sub_files2_count)) (ENTRY_PAIR_SIZE * h.folder_count) =
      .ok (buffer.drop (12 * h.movie_count + 8 * h.part1_count + 12 * h.part1_count + 4 * h.part2_count + 16 * h.music_file_count + 12 * h.another_hash_table_size + 52 * h.folder_count + 28 * (h.file_count1 + h.file_count2) + 8 * h.hash_folder_count + 40 * h.tree_count + 16 * h.sub_files1_count + 16 * h.sub_files2_count + 8 * h.folder_count)) :=
    sliceSuffix_drop buffer _ (8 * h.folder_count) (by omega)
  simp only [resolve13, e1, e2, e3, e4, e5, e6, e7, e8, e9, e10, e11, e12, e13, Except.bind]
  rfl

lemma resolve13_err_of (h : NodeHeader) (buffer : List Nat)
    (hlen : buffer.length < sectionTotal h) :
    resolve13 h buffer = .error (.panicked "range start index out of range") := by
  simp only [sectionTotal] at hlen
  by_cases h1 : 12 * h.movie_count ≤ buffer.length
  case neg =>
    have f : sliceSuffix buffer (ENTRY_TRIPLET_SIZE * h.movie_count) =
        .error (.panicked "range start index out of range") := by
      unfold sliceSuffix
      rw [if_neg (by simp only [ENTRY_TRIPLET_SIZE]; omega)]
    simp only [resolve13, f, Except.bind]
  have e1 : sliceSuffix buffer (ENTRY_TRIPLET_SIZE * h.movie_count) =
      .ok (buffer.drop (12 * h.movie_count)) := by
    unfold sliceSuffix
    rw [if_pos (by simp only [ENTRY_TRIPLET_SIZE]; omega)]
  by_cases h2 : 12 * h.movie_count + 8 * h.part1_count ≤ buffer.length
  case neg =>
    have f : sliceSuffix (buffer.drop (12 * h.movie_count)) (ENTRY_PAIR_SIZE * h.part1_count) =
        .error (.panicked "range start index out of range") :=
      sliceSuffix_drop_err buffer _ (8 * h.part1_count) (by omega) (by omega)
    simp only [resolve13, e1, f, Except.bind]
  have e2 : sliceSuffix (buffer.drop (12 * h.movie_count)) (ENTRY_PAIR_SIZE * h.part1_count) =
      .ok (buffer.drop (12 * h.movie_count + 8 * h.part1_count)) :=
    sliceSuffix_drop buffer _ (8 * h.part1_count) (by omega)
  by_cases h3 : 12 * h.movie_count + 8 * h.part1_count + 12 * h.part1_count ≤ buffer.length
  case neg =>
    have f : sliceSuffix (buffer.drop (12 * h.movie_count + 8 * h.part1_count)) (ENTRY_TRIPLET_SIZE * h.part1_count) =
        .error (.panicked "range start index out of range") :=
      sliceSuffix_drop_err buffer _ (12 * h.part1_count) (by omega) (by omega)
    simp only [resolve13, e1, e2, f, Except.bind]
  have e3 : sliceSuffix (buffer.drop (12 * h.movie_count + 8 * h.part1_count)) (ENTRY_TRIPLET_SIZE * h.part1_count) =
      .ok (buffer.drop (12 * h.movie_count + 8 * h.part1_count + 12 * h.part1_count)) :=
    sliceSuffix_drop buffer _ (12 * h.part1_count) (by omega)
  by_cases h4 : 12 * h.movie_count + 8 * h.part1_count + 12 * h.part1_count + 4 * h.part2_count ≤ buffer.length
  case neg =>
    have f : sliceSuffix (buffer.drop (12 * h.movie_count + 8 * h.part1_count + 12 * h.part1_count)) (4 * h.part2_count) =
        .error (.panicked "range start index out of range") :=
      sliceSuffix_drop_err buffer _ (4 * h.part2_count) (by omega) (by omega)
    simp only [resolve13, e1, e2, e3, f, Except.bind]
  have e4 : sliceSuffix (buffer.drop (12 * h.movie_count + 8 * h.part1_count + 12 * h.part1_count)) (4 * h.part2_count) =
      .ok (buffer.drop (12 * h.movie_count + 8 * h.part1_count + 12 * h.part1_count + 4 * h.part2_count)) :=
    sliceSuffix_drop buffer _ (4 * h.part2_count) (by omega)
  by_cases h5 : 12 * h.movie_count + 8 * h.part1_count + 12 * h.part1_count + 4 * h.part2_count + 16 * h.music_file_count ≤ buffer.length
  case neg =>
    have f : sliceSuffix (buffer.drop (12 * h.movie_count + 8 * h.part1_count + 12 * h.part1_count + 4 * h.part2_count)) (FILE_PAIR_SIZE * h.music_file_count) =
        .error (.panicked "range start index out of range") :=
      sliceSuffix_drop_err buffer _ (16 * h.music_file_count) (by omega) (by omega)
    simp only [resolve13, e1, e2, e3, e4, f, Except.bind]
  have e5 : sliceSuffix (buffer.drop (12 * h.movie_count + 8 * h.part1_count + 12 * h.part1_count + 4 * h.part2_count)) (FILE_PAIR_SIZE * h.music_file_count) =
      .ok (buffer.drop (12 * h.movie_count + 8 * h.part1_count + 12 * h.part1_count + 4 * h.part2_count + 16 * h.music_file_count)) :=
    sliceSuffix_drop buffer _ (16 * h.music_file_count) (by omega)
  by_cases h6 : 12 * h.movie_count + 8 * h.part1_count + 12 * h.part1_count + 4 * h.part2_count + 16 * h.music_file_count + 12 * h.another_hash_table_size ≤ buffer.length
  case neg =>
    have f : sliceSuffix (buffer.drop (12 * h.movie_count + 8 * h.part1_count + 12 * h.part1_count + 4 * h.part2_count + 16 * h.music_file_count)) (ENTRY_TRIPLET_SIZE * h.another_hash_table_size) =
        .error (.panicked "range start index out of range") :=
      sliceSuffix_drop_err buffer _ (12 * h.another_hash_table_size) (by omega) (by omega)
    simp only [resolve13, e1, e2, e3, e4, e5, f, Except.bind]
  have e6 : sliceSuffix (buffer.drop (12 * h.movie_count + 8 * h.part1_count + 12 * h.part1_count + 4 * h.part2_count + 16 * h.music_file_count)) (ENTRY_TRIPLET_SIZE * h.another_hash_table_size) =
      .ok (buffer.drop (12 * h.movie_count + 8 * h.part1_count + 12 * h.part1_count + 4 * h.part2_count + 16 * h.music_file_count + 12 * h.another_hash_table_size)) :=
    sliceSuffix_drop buffer _ (12 * h.another_hash_table_size) (by omega)
  by_cases h7 : 12 * h.movie_count + 8 * h.part1_count + 12 * h.part1_count + 4 * h.part2_count + 16 * h.music_file_count + 12 * h.another_hash_table_size + 52 * h.folder_count ≤ buffer.length
  case neg =>
    have f : sliceSuffix (buffer.drop (12 * h.movie_count + 8 * h.part1_count + 12 * h.part1_count + 4 * h.part2_count + 16 * h.music_file_count + 12 * h.another_hash_table_size)) (BIG_HASH_ENTRY_SIZE * h.folder_count) =
        .error (.panicked "range start index out of range") :=
      sliceSuffix_drop_err buffer _ (52 * h.folder_count) (by omega) (by omega)
    simp only [resolve13, e1, e2, e3, e4, e5, e6, f, Except.bind]
  have e7 : sliceSuffix (buffer.drop (12 * h.movie_count + 8 * h.part1_count + 12 * h.part1_count + 4 * h.part2_count + 16 * h.music_file_count + 12 * h.another_hash_table_size)) (BIG_HASH_ENTRY_SIZE * h.folder_count) =
      .ok (buffer.drop (12 * h.movie_count + 8 * h.part1_count + 12 * h.part1_count + 4 * h.part2_count + 16 * h.music_file_count + 12 * h.another_hash_table_size + 52 * h.folder_count)) :=
    sliceSuffix_drop buffer _ (52 * h.folder_count) (by omega)
  by_cases h8 : 12 * h.movie_count + 8 * h.part1_count + 12 * h.part1_count + 4 * h.part2_count + 16 * h.music_file_count + 12 * h.another_hash_table_size + 52 * h.folder_count + 28 * (h.file_count1 + h.file_count2) ≤ buffer.length
  case neg =>
    have f : sliceSuffix (buffer.drop (12 * h.movie_count + 8 * h.part1_count + 12 * h.part1_count + 4 * h.part2_count + 16 * h.music_file_count + 12 * h.another_hash_table_size + 52 * h.folder_count)) (BIG_FILE_ENTRY_SIZE * (h.file_count1 + h.file_count2)) =
        .error (.panicked "range start index out of range") :=
      sliceSuffix_drop_err buffer _ (28 * (h.file_count1 + h.file_count2)) (by omega) (by omega)
    simp only [resolve13, e1, e2, e3, e4, e5, e6, e7, f, Except.bind]
  have e8 : sliceSuffix (buffer.drop (12 * h.movie_count + 8 * h.part1_count + 12 * h.part1_count + 4 * h.part2_count + 16 * h.music_file_count + 12 * h.another_hash_table_size + 52 * h.folder_count)) (BIG_FILE_ENTRY_SIZE * (h.file_count1 + h.file_count2)) =
      .ok (buffer.drop (12 * h.movie_count + 8 * h.part1_count + 12 * h.part1_count + 4 * h.part2_count + 16 * h.music_file_count + 12 * h.another_hash_table_size + 52 * h.folder_count + 28 * (h.file_count1 + h.file_count2))) :=
    sliceSuffix_drop buffer _ (28 * (h.file_count1 + h.file_count2)) (by omega)
  by_cases h9 : 12 * h.movie_count + 8 * h.part1_count + 12 * h.part1_count + 4 * h.part2_count + 16 * h.music_file_count + 12 * h.another_hash_table_size + 52 * h.folder_count + 28 * (h.file_count1 + h.file_count2) + 8 * h.hash_folder_count ≤ buffer.length
  case neg =>
    have f : sliceSuffix (buffer.drop (12 * h.movie_count + 8 * h.part1_count + 12 * h.part1_count + 4 * h.part2_count + 16 * h.music_file_count + 12 * h.another_hash_table_size + 52 * h.folder_count + 28 * (h.file_count1 + h.file_count2))) (ENTRY_PAIR_SIZE * h.hash_folder_count) =
        .error (.panicked "range start index out of range") :=
      sliceSuffix_drop_err buffer _ (8 * h.hash_folder_count) (by omega) (by omega)
    simp only [resolve13, e1, e2, e3, e4, e5, e6, e7, e8, f, Except.bind]
  have e9 : sliceSuffix (buffer.drop (12 * h.movie_count + 8 * h.part1_count + 12 * h.part1_count + 4 * h.part2_count + 16 * h.music_file_count + 12 * h.another_hash_table_size + 52 * h.folder_count + 28 * (h.file_count1 + h.file_count2))) (ENTRY_PAIR_SIZE * h.hash_folder_count) =
      .ok (buffer.drop (12 * h.movie_count + 8 * h.part1_count + 12 * h.part1_count + 4 * h.part2_count + 16 * h.music_file_count + 12 * h.another_hash_table_size + 52 * h.folder_count + 28 * (h.file_count1 + h.file_count2) + 8 * h.hash_folder_count)) :=
    sliceSuffix_drop buffer _ (8 * h.hash_folder_count) (by omega)
  by_cases h10 : 12 * h.movie_count + 8 * h.part1_count + 12 * h.part1_count + 4 * h.part2_count + 16 * h.music_file_count + 12 * h.another_hash_table_size + 52 * h.folder_count + 28 * (h.file_count1 + h.file_count2) + 8 * h.hash_folder_count + 40 * h.tree_count ≤ buffer.length
  case neg =>
    have f : sliceSuffix (buffer.drop (12 * h.movie_count + 8 * h.part1_count + 12 * h.part1_count + 4 * h.part2_count + 16 * h.music_file_count + 12 * h.another_hash_table_size + 52 * h.folder_count + 28 * (h.file_count1 + h.file_count2) + 8 * h.hash_folder_count)) (TREE_ENTRY_SIZE * h.tree_count) =
        .error (.panicked "range start index out of range") :=
      sliceSuffix_drop_err buffer _ (40 * h.tree_count) (by omega) (by omega)
    simp only [resolve13, e1, e2, e3, e4, e5, e6, e7, e8, e9, f, Except.bind]
  have e10 : sliceSuffix (buffer.drop (12 * h.movie_count + 8 * h.part1_count + 12 * h.part1_count + 4 * h.part2_count + 16 * h.music_file_count + 12 * h.another_hash_table_size + 52 * h.folder_count + 28 * (h.file_count1 + h.file_count2) + 8 * h.hash_folder_count)) (TREE_ENTRY_SIZE * h.tree_count) =
      .ok (buffer.drop (12 * h.movie_count + 8 * h.part1_count + 12 * h.part1_count + 4 * h.part2_count + 16 * h.music_file_count + 12 * h.another_hash_table_size + 52 * h.folder_count + 28 * (h.file_count1 + h.file_count2) + 8 * h.hash_folder_count + 40 * h.tree_count)) :=
    sliceSuffix_drop buffer _ (40 * h.tree_count) (by omega)
  by_cases h11 : 12 * h.movie_count + 8 * h.part1_count + 12 * h.part1_count + 4 * h.part2_count + 16 * h.music_file_count + 12 * h.another_hash_table_size + 52 * h.folder_count + 28 * (h.file_count1 + h.file_count2) + 8 * h.hash_folder_count + 40 * h.tree_count + 16 * h.sub_files1_count ≤ buffer.length
  case neg =>
    have f : sliceSuffix (buffer.drop (12 * h.movie_count + 8 * h.part1_count + 12 * h.part1_count + 4 * h.part2_count + 16 * h.music_file_count + 12 * h.another_hash_table_size + 52 * h.folder_count + 28 * (h.file_count1 + h.file_count2) + 8 * h.hash_folder_count + 40 * h.tree_count)) (FILE_ENTRY_SIZE * h.sub_files1_count) =
        .error (.panicked "range start index out of range") :=
      sliceSuffix_drop_err buffer _ (16 * h.sub_files1_count) (by omega) (by omega)
    simp only [resolve13, e1, e2, e3, e4, e5, e6, e7, e8, e9, e10, f, Except.bind]
  have e11 : sliceSuffix (buffer.drop (12 * h.movie_count + 8 * h.part1_count + 12 * h.part1_count + 4 * h.part2_count + 16 * h.music_file_count + 12 * h.another_hash_table_size + 52 * h.folder_count + 28 * (h.file_count1 + h.file_count2) + 8 * h.hash_folder_count + 40 * h.tree_count)) (FILE_ENTRY_SIZE * h.sub_files1_count) =
      .ok (buffer.drop (12 * h.movie_count + 8 * h.part1_count + 12 * h.part1_count + 4 * h.part2_count + 16 * h.music_file_count + 12 * h.another_hash_table_size + 52 * h.folder_count + 28 * (h.file_count1 + h.file_count2) + 8 * h.hash_folder_count + 40 * h.tree_count + 16 * h.sub_files1_count)) :=
    sliceSuffix_drop buffer _ (16 * h.sub_files1_count) (by omega)
  by_cases h12 : 12 * h.movie_count + 8 * h.part1_count + 12 * h.part1_count + 4 * h.part2_count + 16 * h.music_file_count + 12 * h.another_hash_table_size + 52 * h.folder_count + 28 * (h.file_count1 + h.file_count2) + 8 * h.hash_folder_count + 40 * h.tree_count + 16 * h.sub_files1_count + 16 * h.sub_files2_count ≤ buffer.length
  case neg =>
    have f : sliceSuffix (buffer.drop (12 * h.movie_count + 8 * h.part1_count + 12 * h.part1_count + 4 * h.part2_count + 16 * h.music_file_count + 12 * h.another_hash_table_size + 52 * h.folder_count + 28 * (h.file_count1 + h.file_count2) + 8 * h.hash_folder_count + 40 * h.tree_count + 16 * h.sub_files1_count)) (FILE_ENTRY_SIZE * h.sub_files2_count) =
        .error (.panicked "range start index out of range") :=
      sliceSuffix_drop_err buffer _ (16 * h.sub_files2_count) (by omega) (by omega)
    simp only [resolve13, e1, e2, e3, e4, e5, e6, e7, e8, e9, e10, e11, f, Except.bind]
  have e12 : sliceSuffix (buffer.drop (12 * h.movie_count + 8 * h.part1_count + 12 * h.part1_count + 4 * h.part2_count + 16 * h.music_file_count + 12 * h.another_hash_table_size + 52 * h.folder_count + 28 * (h.file_count1 + h.file_count2) + 8 * h.hash_folder_count + 40 * h.tree_count + 16 * h.sub_files1_count)) (FILE_ENTRY_SIZE * h.sub_files2_count) =
      .ok (buffer.drop (12 * h.movie_count + 8 * h.part1_count + 12 * h.part1_count + 4 * h.part2_count + 16 * h.music_file_count + 12 * h.another_hash_table_size + 52 * h.folder_count + 28 * (h.file_count1 + h.file_count2) + 8 * h.hash_folder_count + 40 * h.tree_count + 16 * h.sub_files1_count + 16 * h.sub_files2_count)) :=
    sliceSuffix_drop buffer _ (16 * h.sub_files2_count) (by omega)
  have f13 : sliceSuffix (buffer.drop (12 * h.movie_count + 8 * h.part1_count + 12 * h.part1_count + 4 * h.part2_count + 16 * h.music_file_count + 12 * h.another_hash_table_size + 52 * h.folder_count + 28 * (h.file_count1 + h.file_count2) + 8 * h.hash_folder_count + 40 * h.tree_count + 16 * h.sub_files1_count + 16 * h.sub_files2_count)) (ENTRY_PAIR_SIZE * h.folder_count) =
      .error (.panicked "range start index out of range") :=
    sliceSuffix_drop_err buffer _ (8 * h.folder_count) (by omega) (by omega)
  simp only [resolve13, e1, e2, e3, e4, e5, e6, e7, e8, e9, e10, e11, e12, f13, Except.bind]

lemma sliceSuffix_ok_iff {s t : List Nat} {n : Nat} :
    sliceSuffix s n = .ok t ↔ n ≤ s.length ∧ t = s.drop n := by
  unfold sliceSuffix
  split
  next hcond => simp [hcond, eq_comm]
  next hcond => simp [hcond]

lemma readExact_ok {file : List Nat} {pos n : Nat} {b : List Nat}
    (hok : readExact file pos n = .ok b) :
    pos + n ≤ file.length ∧ b = (file.drop pos).take n ∧ b.length = n := by
  unfold readExact at hok
  split at hok
  next hcond =>
    injection hok with hb
    subst hb
    refine ⟨hcond, rfl, ?_⟩
    simp only [List.length_take, List.length_drop]
    omega
  next => exact Except.noConfusion hok

lemma usizeSub_ok {a b v : Nat} (hok : usizeSub a b = .ok v) :
    b ≤ a ∧ v = a - b := by
  unfold usizeSub at hok
  split at hok
  next hcond =>
    injection hok with hv
    exact ⟨hcond, hv.symm⟩
  next => exact Except.noConfusion hok

lemma drop_isSuffix (l : List Nat) (a b : Nat) (hab : a ≤ b) :
    (l.drop b).IsSuffix (l.drop a) := by
  have hd : l.drop b = (l.drop a).drop (b - a) := by
    rw [List.drop_drop]
    congr 1
    omega
  rw [hd]
  exact List.drop_suffix _ _

lemma resolve13_ok_inv (h : NodeHeader) (buffer : List Nat) (s : SectionViews)
    (hres : resolve13 h buffer = .ok s) :
    sectionTotal h ≤ buffer.length ∧ s = layout13 h buffer := by
  by_cases hlen : sectionTotal h ≤ buffer.length
  · rw [resolve13_ok_of h buffer hlen] at hres
    injection hres with hs
    exact ⟨hlen, hs.symm⟩
  · rw [resolve13_err_of h buffer (by omega)] at hres
    exact Except.noConfusion hres

lemma pread_hash_bucket_ok {data : List Nat} {hb : HashBucket}
    (hok : pread_hash_bucket data = .ok hb) :
    HASH_BUCKET_SIZE ≤ data.length ∧ hb = { index := readU32 data 0x0, num_entries := readU32 data 0x4 } := by
  unfold pread_hash_bucket at hok
  split at hok
  next hcond =>
    injection hok with hv
    exact ⟨hcond, hv.symm⟩
  next => exact Except.noConfusion hok

lemma resolve_ok_inv (h : NodeHeader) (buffer : List Nat) (r : ResolvedNode)
    (hres : resolve h buffer = .ok r) :
    sectionTotal h ≤ buffer.length ∧
    r.toSectionViews = layout13 h buffer ∧
    pread_hash_bucket r.file_lookup_buckets = .ok r.hash_bucket ∧
    HASH_BUCKET_SIZE * (r.hash_bucket.num_entries + 1) ≤ r.file_lookup_buckets.length ∧
    r.file_lookup = r.file_lookup_buckets.drop (HASH_BUCKET_SIZE * (r.hash_bucket.num_entries + 1)) ∧
    ENTRY_PAIR_SIZE * h.file_lookup_count ≤ r.file_lookup.length ∧
    r.numbers = r.file_lookup.drop (ENTRY_PAIR_SIZE * h.file_lookup_count) := by
  unfold resolve at hres
  cases h13 : resolve13 h buffer with
  | error e =>
    rw [h13] at hres
    simp only [Except.bind] at hres
    exact Except.noConfusion hres
  | ok s =>
    rw [h13] at hres
    simp only [Except.bind] at hres
    obtain ⟨hlen, hs⟩ := resolve13_ok_inv h buffer s h13
    cases hhb : pread_hash_bucket s.file_lookup_buckets with
    | error e =>
      rw [hhb] at hres
      simp only [Except.bind] at hres
      exact Except.noConfusion hres
    | ok hb =>
      rw [hhb] at hres
      simp only [Except.bind] at hres
      cases hfl : sliceSuffix s.file_lookup_buckets (HASH_BUCKET_SIZE * (hb.num_entries + 1)) with
      | error e =>
        rw [hfl] at hres
        simp only [Except.bind] at hres
        exact Except.noConfusion hres
      | ok fl =>
        rw [hfl] at hres
        simp only [Except.bind] at hres
        cases hnum : sliceSuffix fl (ENTRY_PAIR_SIZE * h.file_lookup_count) with
        | error e =>
          rw [hnum] at hres
          simp only [Except.bind] at hres
          exact Except.noConfusion hres
        | ok nums =>
          rw [hnum] at hres
          simp only [Except.bind] at hres
          injection hres with hr
          subst hr
          obtain ⟨hfl1, hfl2⟩ := sliceSuffix_ok_iff.mp hfl
          obtain ⟨hn1, hn2⟩ := sliceSuffix_ok_iff.mp hnum
          exact ⟨hlen, hs, hhb, hfl1, hfl2, hn1, hn2⟩

lemma read_raw_node_ok_inv (file : List Nat) (off : Nat) (nh : NodeHeader) (buf : List Nat)
    (hok : read_raw_node file off = .ok (nh, buf)) :
    NODE_HEADER_SIZE ≤ nh.file_size ∧ buf.length = nh.file_size - NODE_HEADER_SIZE := by
  unfold read_raw_node at hok
  cases h1 : readExact file off NODE_HEADER_SIZE with
  | error e =>
    rw [h1] at hok
    simp only [Except.bind] at hok
    exact Except.noConfusion hok
  | ok hdrBytes =>
    rw [h1] at hok
    simp only [Except.bind] at hok
    cases h2 : pread_node_header hdrBytes with
    | error e =>
      rw [h2] at hok
      simp only [Except.bind] at hok
      exact Except.noConfusion hok
    | ok node_header =>
      rw [h2] at hok
      simp only [Except.bind] at hok
      cases h3 : usizeSub node_header.file_size NODE_HEADER_SIZE with
      | error e =>
        rw [h3] at hok
        simp only [Except.bind] at hok
        exact Except.noConfusion hok
      | ok bufLen =>
        rw [h3] at hok
        simp only [Except.bind] at hok
        cases h4 : readExact file (off + NODE_HEADER_SIZE) bufLen with
        | error e =>
          rw [h4] at hok
          simp only [Except.bind] at hok
          exact Except.noConfusion hok
        | ok buffer =>
          rw [h4] at hok
          simp only [Except.bind] at hok
          injection hok with hpair
          obtain ⟨hsub1, hsub2⟩ := usizeSub_ok h3
          obtain ⟨-, -, hlen4⟩ := readExact_ok h4
          have hnh : node_header = nh := congrArg Prod.fst hpair
          have hbuf : buffer = buf := congrArg Prod.snd hpair
          subst hnh
          subst hbuf
          subst hsub2
          exact ⟨hsub1, hlen4⟩

/-- Concrete test header: one movie entry, every other count zero. -/
def hdrMovie1 : NodeHeader :=
  { file_size := 80, folder_count := 0, file_count1 := 0, tree_count := 0,
    sub_files1_count := 0, file_lookup_count := 0, hash_folder_count := 0,
    file_information_count := 0, file_count2 := 0, sub_files2_count := 0,
    unk1 := 0, unk2 := 0, another_hash_table_size := 0, unk3 := 0, unk4 := 0,
    movie_count := 1, part1_count := 0, part2_count := 0, music_file_count := 0 }

/-- Concrete test header: every count field zero (`file_size` is the header
size itself, 68, so the node-section buffer is empty). -/
def zeroCountHeader : NodeHeader :=
  { file_size := 68, folder_count := 0, file_count1 := 0, tree_count := 0,
    sub_files1_count := 0, file_lookup_count := 0, hash_folder_count := 0,
    file_information_count := 0, file_count2 := 0, sub_files2_count := 0,
    unk1 := 0, unk2 := 0, another_hash_table_size := 0, unk3 := 0, unk4 := 0,
    movie_count := 0, part1_count := 0, part2_count := 0, music_file_count := 0 }

/-- C1: for every `NodeHeader` and node-section buffer long enough to hold
all declared sections, the resolver produces the thirteen sections in the
fixed table order, each section starting exactly at the previous section
start plus entry size times count (12 times movie_count, 8 times
part1_count, 12 times part1_count, 4 times part2_count, 16 times
music_file_count, 12 times another_hash_table_size, 52 times folder_count,
28 times the sum of file_count1 and file_count2, 8 times hash_folder_count,
40 times tree_count, 16 times sub_files1_count, 16 times sub_files2_count,
8 times folder_count), with no gaps or padding between consecutive
sections. -/
theorem c1_thirteen_sections_contiguous (h : NodeHeader) (buffer : List Nat)
    (hlen : sectionTotal h ≤ buffer.length) :
    ∃ s : SectionViews, resolve13 h buffer = .ok s ∧
      s.bulkfile_category_info = buffer ∧
      s.bulkfile_hash_lookup = buffer.drop (12 * h.movie_count) ∧
      s.bulkfiles_by_name = buffer.drop (12 * h.movie_count + 8 * h.part1_count) ∧
      s.bulkfile_lookup_to_fileidx = buffer.drop (12 * h.movie_count + 8 * h.part1_count + 12 * h.part1_count) ∧
      s.file_pairs = buffer.drop (12 * h.movie_count + 8 * h.part1_count + 12 * h.part1_count + 4 * h.part2_count) ∧
      s.another_hash_table = buffer.drop (12 * h.movie_count + 8 * h.part1_count + 12 * h.part1_count + 4 * h.part2_count + 16 * h.music_file_count) ∧
      s.big_hashes = buffer.drop (12 * h.movie_count + 8 * h.part1_count + 12 * h.part1_count + 4 * h.part2_count + 16 * h.music_file_count + 12 * h.another_hash_table_size) ∧
      s.big_files = buffer.drop (12 * h.movie_count + 8 * h.part1_count + 12 * h.part1_count + 4 * h.part2_count + 16 * h.music_file_count + 12 * h.another_hash_table_size + 52 * h.folder_count) ∧
      s.folder_hash_lookup = buffer.drop (12 * h.movie_count + 8 * h.part1_count + 12 * h.part1_count + 4 * h.part2_count + 16 * h.music_file_count + 12 * h.another_hash_table_size + 52 * h.folder_count + 28 * (h.file_count1 + h.file_count2)) ∧
      s.trees = buffer.drop (12 * h.movie_count + 8 * h.part1_count + 12 * h.part1_count + 4 * h.part2_count + 16 * h.music_file_count + 12 * h.another_hash_table_size + 52 * h.folder_count + 28 * (h.file_count1 + h.file_count2) + 8 * h.hash_folder_count) ∧
      s.sub_files1 = buffer.drop (12 * h.movie_count + 8 * h.part1_count + 12 * h.part1_count + 4 * h.part2_count + 16 * h.music_file_count + 12 * h.another_hash_table_size + 52 * h.folder_count + 28 * (h.file_count1 + h.file_count2) + 8 * h.hash_folder_count + 40 * h.tree_count) ∧
      s.sub_files2 = buffer.drop (12 * h.movie_count + 8 * h.part1_count + 12 * h.part1_count + 4 * h.part2_count + 16 * h.music_file_count + 12 * h.another_hash_table_size + 52 * h.folder_count + 28 * (h.file_count1 + h.file_count2) + 8 * h.hash_folder_count + 40 * h.tree_count + 16 * h.sub_files1_count) ∧
      s.folder_to_big_hash = buffer.drop (12 * h.movie_count + 8 * h.part1_count + 12 * h.part1_count + 4 * h.part2_count + 16 * h.music_file_count + 12 * h.another_hash_table_size + 52 * h.folder_count + 28 * (h.file_count1 + h.file_count2) + 8 * h.hash_folder_count + 40 * h.tree_count + 16 * h.sub_files1_count + 16 * h.sub_files2_count) ∧
      s.file_lookup_buckets = buffer.drop (12 * h.movie_count + 8 * h.part1_count + 12 * h.part1_count + 4 * h.part2_count + 16 * h.music_file_count + 12 * h.another_hash_table_size + 52 * h.folder_count + 28 * (h.file_count1 + h.file_count2) + 8 * h.hash_folder_count + 40 * h.tree_count + 16 * h.sub_files1_count + 16 * h.sub_files2_count + 8 * h.folder_count) :=
  ⟨layout13 h buffer, resolve13_ok_of h buffer hlen,
   rfl, rfl, rfl, rfl, rfl, rfl, rfl, rfl, rfl, rfl, rfl, rfl, rfl, rfl⟩

/-- Witness for C1: the layout of a 12-byte buffer under a header declaring
exactly one movie entry. -/
theorem c1_thirteen_sections_contiguous_witness :
    sectionTotal hdrMovie1 ≤ (List.replicate 12 (0 : Nat)).length ∧
    ∃ s : SectionViews, resolve13 hdrMovie1 (List.replicate 12 0) = .ok s ∧
      s.bulkfile_hash_lookup = (List.replicate 12 (0 : Nat)).drop (12 * hdrMovie1.movie_count) := by
  refine ⟨by decide, ?_⟩
  obtain ⟨s, hok, -, h2, -⟩ :=
    c1_thirteen_sections_contiguous hdrMovie1 (List.replicate 12 0) (by decide)
  exact ⟨s, hok, h2⟩

/-- C2 counterexample: a header declaring one 12-byte movie entry over an
empty buffer makes the walk panic on the slice bounds check; there is no
`TruncatedData` error value anywhere in the code. -/
theorem c2_counterexample_panic_not_error :
    resolve hdrMovie1 [] = .error (.panicked "range start index out of range") := by
  rfl

/-- C2 amended: when the declared section lengths exceed the buffer length,
the resolver does not return a `TruncatedData` error value (no such variant
exists); the Rust bounds check on the slice start precedes the indexing and
makes the process panic, so no out-of-bounds access past the end of the
buffer ever happens. -/
theorem c2_amended_overflow_panics (h : NodeHeader) (buffer : List Nat)
    (hover : buffer.length < sectionTotal h) :
    resolve h buffer = .error (.panicked "range start index out of range") := by
  unfold resolve
  rw [resolve13_err_of h buffer hover]
  rfl

/-- Witness for the amended C2 on a concrete 3-byte buffer. -/
theorem c2_amended_overflow_panics_witness :
    (List.replicate 3 (0 : Nat)).length < sectionTotal hdrMovie1 ∧
    resolve hdrMovie1 (List.replicate 3 0) =
      .error (.panicked "range start index out of range") :=
  ⟨by decide, c2_amended_overflow_panics hdrMovie1 (List.replicate 3 0) (by decide)⟩

/-- C4: the decoded hash of a pair or triplet equals the little-endian value
of the first 5 window bytes zero-extended (hence at most 2 to the 40 minus
one), the decoded metadata equals the little-endian value of window bytes
5 to 7 zero-extended (hence at most 2 to the 24 minus one), and decoding a
pair from the concrete window 01 02 03 04 05 aa bb cc yields hash
0x0504030201 and metadata 0xccbbaa. -/
theorem c4_pair_triplet_hash_meta
    (a0 a1 a2 a3 a4 a5 a6 a7 : Nat) (rest : List Nat)
    (h0 : a0 < 256) (h1 : a1 < 256) (h2 : a2 < 256) (h3 : a3 < 256)
    (h4 : a4 < 256) (h5 : a5 < 256) (h6 : a6 < 256) (h7 : a7 < 256) :
    (∃ p : EntryPair,
      read_pair (a0 :: a1 :: a2 :: a3 :: a4 :: a5 :: a6 :: a7 :: rest) = .ok p ∧
      p.hash = leNat ((a0 :: a1 :: a2 :: a3 :: a4 :: a5 :: a6 :: a7 :: rest).take 5) ∧
      p.meta = leNat (((a0 :: a1 :: a2 :: a3 :: a4 :: a5 :: a6 :: a7 :: rest).drop 5).take 3) ∧
      p.hash ≤ 2 ^ 40 - 1 ∧ p.meta ≤ 2 ^ 24 - 1) ∧
    (∀ (b0 b1 b2 b3 : Nat) (rest2 : List Nat),
      ∃ t : EntryTriplet,
        read_triplet (a0 :: a1 :: a2 :: a3 :: a4 :: a5 :: a6 :: a7 :: b0 :: b1 :: b2 :: b3 :: rest2) = .ok t ∧
        t.hash = leNat ((a0 :: a1 :: a2 :: a3 :: a4 :: a5 :: a6 :: a7 :: b0 :: b1 :: b2 :: b3 :: rest2).take 5) ∧
        t.meta = leNat (((a0 :: a1 :: a2 :: a3 :: a4 :: a5 :: a6 :: a7 :: b0 :: b1 :: b2 :: b3 :: rest2).drop 5).take 3) ∧
        t.hash ≤ 2 ^ 40 - 1 ∧ t.meta ≤ 2 ^ 24 - 1) ∧
    read_pair [0x01, 0x02, 0x03, 0x04, 0x05, 0xaa, 0xbb, 0xcc] =
      .ok { hash := 0x0504030201, meta := 0xccbbaa } := by
  refine ⟨?_, ?_, by rfl⟩
  · have hp : read_pair (a0 :: a1 :: a2 :: a3 :: a4 :: a5 :: a6 :: a7 :: rest) =
        .ok { hash := leNat [a0, a1, a2, a3, a4, 0, 0, 0],
              meta := leNat [a5, a6, a7, 0] } := by
      unfold read_pair
      rw [if_pos (by simp)]
      simp [List.getD]
    refine ⟨_, hp, ?_, ?_, ?_, ?_⟩
    · show leNat [a0, a1, a2, a3, a4, 0, 0, 0] = leNat [a0, a1, a2, a3, a4]
      simp [leNat]
    · show leNat [a5, a6, a7, 0] = leNat [a5, a6, a7]
      simp [leNat]
    · show leNat [a0, a1, a2, a3, a4, 0, 0, 0] ≤ 2 ^ 40 - 1
      simp [leNat]
      omega
    · show leNat [a5, a6, a7, 0] ≤ 2 ^ 24 - 1
      simp [leNat]
      omega
  · intro b0 b1 b2 b3 rest2
    have ht : read_triplet (a0 :: a1 :: a2 :: a3 :: a4 :: a5 :: a6 :: a7 :: b0 :: b1 :: b2 :: b3 :: rest2) =
        .ok { hash := leNat [a0, a1, a2, a3, a4, 0, 0, 0],
              meta := leNat [a5, a6, a7, 0],
              meta2 := readU32 (a0 :: a1 :: a2 :: a3 :: a4 :: a5 :: a6 :: a7 :: b0 :: b1 :: b2 :: b3 :: rest2) 8 } := by
      unfold read_triplet
      rw [if_pos (by simp)]
      simp [List.getD]
    refine ⟨_, ht, ?_, ?_, ?_, ?_⟩
    · show leNat [a0, a1, a2, a3, a4, 0, 0, 0] = leNat [a0, a1, a2, a3, a4]
      simp [leNat]
    · show leNat [a5, a6, a7, 0] = leNat [a5, a6, a7]
      simp [leNat]
    · show leNat [a0, a1, a2, a3, a4, 0, 0, 0] ≤ 2 ^ 40 - 1
      simp [leNat]
      omega
    · show leNat [a5, a6, a7, 0] ≤ 2 ^ 24 - 1
      simp [leNat]
      omega

/-- Witness for C4 at the concrete window from the spec round-trip test. -/
theorem c4_pair_triplet_hash_meta_witness :
    (∃ p : EntryPair,
      read_pair [0x01, 0x02, 0x03, 0x04, 0x05, 0xaa, 0xbb, 0xcc] = .ok p ∧
      p.hash = leNat ([0x01, 0x02, 0x03, 0x04, 0x05, 0xaa, 0xbb, 0xcc].take 5) ∧
      p.meta = leNat (([(0x01 : Nat), 0x02, 0x03, 0x04, 0x05, 0xaa, 0xbb, 0xcc].drop 5).take 3) ∧
      p.hash ≤ 2 ^ 40 - 1 ∧ p.meta ≤ 2 ^ 24 - 1) ∧
    (∃ t : EntryTriplet,
      read_triplet [0x01, 0x02, 0x03, 0x04, 0x05, 0xaa, 0xbb, 0xcc, 0x0d, 0x0e, 0x0f, 0x10] = .ok t ∧
      t.hash ≤ 2 ^ 40 - 1) := by
  obtain ⟨hpair, htrip, -⟩ :=
    c4_pair_triplet_hash_meta 0x01 0x02 0x03 0x04 0x05 0xaa 0xbb 0xcc []
      (by decide) (by decide) (by decide) (by decide) (by decide)
      (by decide) (by decide) (by decide)
  refine ⟨hpair, ?_⟩
  obtain ⟨t, hok, -, -, hb, -⟩ := htrip 0x0d 0x0e 0x0f 0x10 []
  exact ⟨t, hok, hb⟩

/-- Concrete archive: valid magic, an `ArcHeader` whose node-section offset
is 48, and a 16-byte probe there with `data_start = 0x50` (less than
0x100, so the node section is flagged as compressed). -/
def compressedProbeFile : List Nat :=
  [0x10, 0x32, 0x54, 0x76, 0x98, 0xef, 0xcd, 0xab] ++
  List.replicate 24 0 ++
  [48, 0, 0, 0, 0, 0, 0, 0] ++
  List.replicate 8 0 ++
  ([0x50, 0, 0, 0] ++ List.replicate 12 0)

/-- C3 counterexample: on a compressed-node archive the entry point panics
in the unimplemented branch instead of returning an `UnsupportedFeature`
error value (no such variant exists in the code). -/
theorem c3_counterexample_unimplemented_panic :
    parse compressedProbeFile = .panicked "not implemented" := by
  rfl

/-- C3 amended: whenever the probe parses with `data_start` below 0x100,
`internal_parse` recognises the compressed case and never attempts to read
the bytes as a raw `NodeHeader`, but it panics in the unimplemented branch
rather than returning an `UnsupportedFeature` error value. -/
theorem c3_amended_compressed_panics (file arcBytes probeBytes : List Nat)
    (header : ArcHeader) (compressed : CompressedNodeHeader)
    (h1 : readExact file 8 ARC_HEADER_SIZE = .ok arcBytes)
    (h2 : pread_arc_header arcBytes = .ok header)
    (h3 : readExact file header.node_section_offset COMPRESSED_NODE_HEADER_SIZE = .ok probeBytes)
    (h4 : pread_compressed_node_header probeBytes = .ok compressed)
    (h5 : compressed.data_start < 0x100) :
    internal_parse file = .error (.panicked "not implemented") := by
  unfold internal_parse
  rw [h1]
  simp only [Except.bind]
  rw [h2]
  simp only [Except.bind]
  rw [h3]
  simp only [Except.bind]
  rw [h4]
  simp only [Except.bind]
  rw [if_pos h5]

/-- Witness for the amended C3 on the concrete compressed-probe archive. -/
theorem c3_amended_compressed_panics_witness :
    internal_parse compressedProbeFile = .error (.panicked "not implemented") :=
  c3_amended_compressed_panics compressedProbeFile
    ((compressedProbeFile.drop 8).take 40)
    ((compressedProbeFile.drop 48).take 16)
    { music_file_section_offset := 0, file_section_offset := 0,
      music_section_offset := 0, node_section_offset := 48,
      unk_section_offset := 0 }
    { data_start := 0x50, decomp_size := 0, comp_size := 0, zstd_comp_size := 0 }
    rfl rfl rfl rfl (by decide)

/-- Concrete 68-byte node region whose `NodeHeader` has `file_size = 0`. -/
def zeroFileSizeNode : List Nat := List.replicate 68 0

/-- Concrete `NodeHeader` with every field zero. -/
def allZeroHeader : NodeHeader :=
  { file_size := 0, folder_count := 0, file_count1 := 0, tree_count := 0,
    sub_files1_count := 0, file_lookup_count := 0, hash_folder_count := 0,
    file_information_count := 0, file_count2 := 0, sub_files2_count := 0,
    unk1 := 0, unk2 := 0, another_hash_table_size := 0, unk3 := 0, unk4 := 0,
    movie_count := 0, part1_count := 0, part2_count := 0, music_file_count := 0 }

/-- Concrete 68-byte node region whose `NodeHeader` has `file_size = 68`. -/
def exactFileSizeNode : List Nat := 0x44 :: List.replicate 67 0

/-- C5 counterexample: with `file_size = 0` the buffer-size computation
`file_size - 68` underflows and the code panics; no `CorruptHeader` error
value is produced (no such variant exists in the code). -/
theorem c5_counterexample_underflow_panic :
    read_raw_node zeroFileSizeNode 0 =
      .error (.panicked "attempt to subtract with overflow") := by
  rfl

/-- C5 amended: a successful raw-node read always has `file_size` at least
68 and reads exactly `file_size - 68` further bytes as the node-section
buffer; when the parsed `file_size` is below 68 the unchecked `usize`
subtraction underflows and the code panics instead of failing with a
`CorruptHeader` error. -/
theorem c5_amended_raw_node_read (file : List Nat) (off : Nat) :
    (∀ (nh : NodeHeader) (buf : List Nat),
      read_raw_node file off = .ok (nh, buf) →
      68 ≤ nh.file_size ∧ buf.length = nh.file_size - 68) ∧
    (∀ (hdrBytes : List Nat) (nh : NodeHeader),
      readExact file off NODE_HEADER_SIZE = .ok hdrBytes →
      pread_node_header hdrBytes = .ok nh →
      nh.file_size < 68 →
      read_raw_node file off = .error (.panicked "attempt to subtract with overflow")) := by
  constructor
  · intro nh buf hok
    exact read_raw_node_ok_inv file off nh buf hok
  · intro hdrBytes nh h1 h2 h3
    unfold read_raw_node
    rw [h1]
    simp only [Except.bind]
    rw [h2]
    simp only [Except.bind]
    have hsub : usizeSub nh.file_size NODE_HEADER_SIZE =
        .error (.panicked "attempt to subtract with overflow") := by
      unfold usizeSub
      rw [if_neg (by simp only [NODE_HEADER_SIZE]; omega)]
    rw [hsub]

/-- Witness for the amended C5: both halves applied at concrete node
regions with `file_size = 68` and `file_size = 0` respectively. -/
theorem c5_amended_raw_node_read_witness :
    (68 ≤ zeroCountHeader.file_size ∧
      (List.nil : List Nat).length = zeroCountHeader.file_size - 68) ∧
    read_raw_node zeroFileSizeNode 0 =
      .error (.panicked "attempt to subtract with overflow") :=
  ⟨(c5_amended_raw_node_read exactFileSizeNode 0).1 zeroCountHeader [] rfl,
   (c5_amended_raw_node_read zeroFileSizeNode 0).2 zeroFileSizeNode allZeroHeader
     rfl rfl (by decide)⟩

/-- C6: for every input whose first 8 bytes are missing or do not hold the
little-endian magic constant, `parse` returns the format-mismatch error
`NotDataArc`; the outcome is independent of every byte past the first 8,
so no further read of the stream influences the result. -/
theorem c6_bad_magic_notDataArc (file : List Nat)
    (hmagic : file.length < 8 ∨ leNat (file.take 8) ≠ 0xabcdef9876543210) :
    parse file = .notDataArc ∧
    ∀ tail : List Nat, 8 ≤ file.length → parse (file.take 8 ++ tail) = .notDataArc := by
  constructor
  · unfold parse
    rw [if_neg (by
      rintro ⟨hlen, hval⟩
      rcases hmagic with hshort | hne
      · omega
      · exact hne hval)]
  · intro tail hlen8
    unfold parse
    rw [if_neg (by
      rintro ⟨hlen, hval⟩
      rcases hmagic with hshort | hne
      · omega
      · apply hne
        have htake : (file.take 8 ++ tail).take 8 = file.take 8 := by
          rw [List.take_append_of_le_length (by simp [List.length_take]; omega)]
          rw [List.take_take]
          norm_num
        rw [← htake]
        exact hval)]

/-- Witness for C6 on a concrete 8-byte non-magic stream and an extension
of it. -/
theorem c6_bad_magic_notDataArc_witness :
    parse (List.replicate 8 (0 : Nat)) = .notDataArc ∧
    parse ((List.replicate 8 (0 : Nat)).take 8 ++ [1]) = .notDataArc := by
  obtain ⟨ha, hb⟩ :=
    c6_bad_magic_notDataArc (List.replicate 8 0) (Or.inr (by decide))
  exact ⟨ha, hb [1] (by decide)⟩

/-- C7: after the thirteenth section an 8-byte `HashBucket` is decoded at
the start of the fourteenth view; the `file_lookup` view starts exactly
8 times (num_entries plus 1) bytes later, where `num_entries` is the u32
read from the buffer itself (offset 4 of the fourteenth view, not a
`NodeHeader` field); the `numbers` view starts 8 times `file_lookup_count`
bytes after `file_lookup` and runs to the end of the buffer. -/
theorem c7_hash_bucket_driven_tail (h : NodeHeader) (buffer : List Nat)
    (r : ResolvedNode) (hres : resolve h buffer = .ok r) :
    pread_hash_bucket r.file_lookup_buckets = .ok r.hash_bucket ∧
    r.hash_bucket.num_entries = readU32 r.file_lookup_buckets 0x4 ∧
    r.file_lookup = r.file_lookup_buckets.drop (8 * (r.hash_bucket.num_entries + 1)) ∧
    r.numbers = r.file_lookup.drop (8 * h.file_lookup_count) ∧
    r.numbers.IsSuffix buffer := by
  obtain ⟨hlen, hviews, hhb, hb1, hfl, hn1, hnums⟩ := resolve_ok_inv h buffer r hres
  obtain ⟨-, hbval⟩ := pread_hash_bucket_ok hhb
  refine ⟨hhb, by simp [hbval], hfl, hnums, ?_⟩
  have h1 : r.file_lookup_buckets.IsSuffix buffer := by
    rw [hviews]
    exact List.drop_suffix _ _
  have h2 : r.file_lookup.IsSuffix r.file_lookup_buckets := by
    rw [hfl]
    exact List.drop_suffix _ _
  have h3 : r.numbers.IsSuffix r.file_lookup := by
    rw [hnums]
    exact List.drop_suffix _ _
  exact h3.trans (h2.trans h1)

/-- Witness for C7 on an all-counts-zero header over an 8-byte buffer. -/
theorem c7_hash_bucket_driven_tail_witness :
    ∃ r : ResolvedNode, resolve zeroCountHeader (List.replicate 8 0) = .ok r ∧
      pread_hash_bucket r.file_lookup_buckets = .ok r.hash_bucket ∧
      r.numbers.IsSuffix (List.replicate 8 0) := by
  obtain ⟨r, hres⟩ : ∃ r, resolve zeroCountHeader (List.replicate 8 0) = .ok r := ⟨_, rfl⟩
  obtain ⟨h1, -, -, -, h5⟩ :=
    c7_hash_bucket_driven_tail zeroCountHeader (List.replicate 8 0) r hres
  exact ⟨r, hres, h1, h5⟩

/-- C8 counterexample: on an empty window the hand-written pair decoder
panics on its direct byte indexing instead of reporting an error value to
the caller. -/
theorem c8_counterexample_read_pair_panics :
    read_pair [] = .error (.panicked "index out of range") := by
  rfl

lemma read_pair_isOk (data : List Nat) (hlen : 8 ≤ data.length) :
    ∃ p, read_pair data = .ok p := by
  unfold read_pair
  rw [if_pos hlen]
  exact ⟨_, rfl⟩

lemma byteorderU32_isOk (data : List Nat) (hlen : 4 ≤ data.length) :
    ∃ v, byteorderU32 data = .ok v := by
  unfold byteorderU32
  rw [if_pos hlen]
  exact ⟨_, rfl⟩

lemma byteorderU16_isOk (data : List Nat) (hlen : 2 ≤ data.length) :
    ∃ v, byteorderU16 data = .ok v := by
  unfold byteorderU16
  rw [if_pos hlen]
  exact ⟨_, rfl⟩

lemma indexByte_isOk (data : List Nat) (i : Nat) (hlen : i < data.length) :
    ∃ v, indexByte data i = .ok v := by
  unfold indexByte
  rw [if_pos hlen]
  exact ⟨_, rfl⟩

lemma read_pair_err (data : List Nat) (hshort : data.length < 8) :
    read_pair data = .error (.panicked "index out of range") := by
  unfold read_pair
  rw [if_neg (by omega)]

lemma byteorderU32_err (data : List Nat) (hshort : data.length < 4) :
    byteorderU32 data = .error (.panicked "index out of range") := by
  unfold byteorderU32
  rw [if_neg (by omega)]

lemma byteorderU16_err (data : List Nat) (hshort : data.length < 2) :
    byteorderU16 data = .error (.panicked "index out of range") := by
  unfold byteorderU16
  rw [if_neg (by omega)]

lemma indexByte_err (data : List Nat) (i : Nat) (hshort : data.length ≤ i) :
    indexByte data i = .error (.panicked "index out of range") := by
  unfold indexByte
  rw [if_neg (by omega)]

/-- C8 amended: on a window shorter than the record size (8 bytes for
`read_pair` and `HashBucket`, 12 for `read_triplet`, 52 for
`read_big_hash_entry`, 40 for `read_tree_entry`, 16 for `FilePair` and
`FileEntry`, 28 for `BigFileEntry`), the hand-written decoders panic on
their unchecked indexing rather than reporting an error, while the
scroll-derived decoders return an error value to the caller; in every case
a too-short window is the only failure condition, and a window of at least
the record size decodes successfully. -/
theorem c8_amended_short_window (data : List Nat) :
    (data.length < 8 → read_pair data = .error (.panicked "index out of range")) ∧
    (data.length < 12 → read_triplet data = .error (.panicked "index out of range")) ∧
    (data.length < 52 → read_big_hash_entry data = .error (.panicked "index out of range")) ∧
    (data.length < 40 → read_tree_entry data = .error (.panicked "index out of range")) ∧
    (data.length < 16 → pread_file_pair data = .error (.err "pread: input too short")) ∧
    (data.length < 28 → pread_big_file_entry data = .error (.err "pread: input too short")) ∧
    (data.length < 16 → pread_file_entry data = .error (.err "pread: input too short")) ∧
    (data.length < 8 → pread_hash_bucket data = .error (.err "pread: input too short")) ∧
    (8 ≤ data.length →
      (∃ p, read_pair data = .ok p) ∧ (∃ hb, pread_hash_bucket data = .ok hb)) ∧
    (12 ≤ data.length → ∃ t, read_triplet data = .ok t) ∧
    (16 ≤ data.length →
      (∃ fp, pread_file_pair data = .ok fp) ∧ (∃ fe, pread_file_entry data = .ok fe)) ∧
    (28 ≤ data.length → ∃ bf, pread_big_file_entry data = .ok bf) ∧
    (40 ≤ data.length → ∃ te, read_tree_entry data = .ok te) ∧
    (52 ≤ data.length → ∃ bh, read_big_hash_entry data = .ok bh) := by
  refine ⟨read_pair_err data, ?_, ?_, ?_, ?_, ?_, ?_, ?_, ?_, ?_, ?_, ?_, ?_, ?_⟩
  · intro hshort
    unfold read_triplet
    rw [if_neg (by omega)]
  · intro hshort
    by_cases h1 : data.length < 8
    · simp only [read_big_hash_entry, read_pair_err data h1, Except.bind]
    obtain ⟨p1, hp1⟩ := read_pair_isOk data (by omega)
    by_cases h2 : data.length < 16
    · simp only [read_big_hash_entry, hp1,
        read_pair_err (data.drop 0x08) (by simp only [List.length_drop]; omega), Except.bind]
    obtain ⟨p2, hp2⟩ := read_pair_isOk (data.drop 0x08) (by simp only [List.length_drop]; omega)
    by_cases h3 : data.length < 24
    · simp only [read_big_hash_entry, hp1, hp2,
        read_pair_err (data.drop 0x10) (by simp only [List.length_drop]; omega), Except.bind]
    obtain ⟨p3, hp3⟩ := read_pair_isOk (data.drop 0x10) (by simp only [List.length_drop]; omega)
    by_cases h4 : data.length < 32
    · simp only [read_big_hash_entry, hp1, hp2, hp3,
        read_pair_err (data.drop 0x18) (by simp only [List.length_drop]; omega), Except.bind]
    obtain ⟨p4, hp4⟩ := read_pair_isOk (data.drop 0x18) (by simp only [List.length_drop]; omega)
    by_cases h5 : data.length < 36
    · simp only [read_big_hash_entry, hp1, hp2, hp3, hp4,
        byteorderU32_err (data.drop 0x20) (by simp only [List.length_drop]; omega), Except.bind]
    obtain ⟨v1, hv1⟩ := byteorderU32_isOk (data.drop 0x20) (by simp only [List.length_drop]; omega)
    by_cases h6 : data.length < 40
    · simp only [read_big_hash_entry, hp1, hp2, hp3, hp4, hv1,
        byteorderU32_err (data.drop 0x24) (by simp only [List.length_drop]; omega), Except.bind]
    obtain ⟨v2, hv2⟩ := byteorderU32_isOk (data.drop 0x24) (by simp only [List.length_drop]; omega)
    by_cases h7 : data.length < 44
    · simp only [read_big_hash_entry, hp1, hp2, hp3, hp4, hv1, hv2,
        byteorderU32_err (data.drop 0x28) (by simp only [List.length_drop]; omega), Except.bind]
    obtain ⟨v3, hv3⟩ := byteorderU32_isOk (data.drop 0x28) (by simp only [List.length_drop]; omega)
    by_cases h8 : data.length < 46
    · simp only [read_big_hash_entry, hp1, hp2, hp3, hp4, hv1, hv2, hv3,
        byteorderU16_err (data.drop 0x2c) (by simp only [List.length_drop]; omega), Except.bind]
    obtain ⟨w1, hw1⟩ := byteorderU16_isOk (data.drop 0x2c) (by simp only [List.length_drop]; omega)
    by_cases h9 : data.length < 48
    · simp only [read_big_hash_entry, hp1, hp2, hp3, hp4, hv1, hv2, hv3, hw1,
        byteorderU16_err (data.drop 0x2e) (by simp only [List.length_drop]; omega), Except.bind]
    obtain ⟨w2, hw2⟩ := byteorderU16_isOk (data.drop 0x2e) (by simp only [List.length_drop]; omega)
    by_cases h10 : data.length < 49
    · simp only [read_big_hash_entry, hp1, hp2, hp3, hp4, hv1, hv2, hv3, hw1, hw2,
        indexByte_err data 0x30 (by omega), Except.bind]
    obtain ⟨b1, hb1⟩ := indexByte_isOk data 0x30 (by omega)
    by_cases h11 : data.length < 50
    · simp only [read_big_hash_entry, hp1, hp2, hp3, hp4, hv1, hv2, hv3, hw1, hw2, hb1,
        indexByte_err data 0x31 (by omega), Except.bind]
    obtain ⟨b2, hb2⟩ := indexByte_isOk data 0x31 (by omega)
    by_cases h12 : data.length < 51
    · simp only [read_big_hash_entry, hp1, hp2, hp3, hp4, hv1, hv2, hv3, hw1, hw2, hb1, hb2,
        indexByte_err data 0x32 (by omega), Except.bind]
    obtain ⟨b3, hb3⟩ := indexByte_isOk data 0x32 (by omega)
    simp only [read_big_hash_entry, hp1, hp2, hp3, hp4, hv1, hv2, hv3, hw1, hw2, hb1, hb2, hb3,
      indexByte_err data 0x33 (by omega), Except.bind]
  · intro hshort
    by_cases h1 : data.length < 8
    · simp only [read_tree_entry, read_pair_err data h1, Except.bind]
    obtain ⟨p1, hp1⟩ := read_pair_isOk data (by omega)
    by_cases h2 : data.length < 16
    · simp only [read_tree_entry, hp1,
        read_pair_err (data.drop 0x08) (by simp only [List.length_drop]; omega), Except.bind]
    obtain ⟨p2, hp2⟩ := read_pair_isOk (data.drop 0x08) (by simp only [List.length_drop]; omega)
    by_cases h3 : data.length < 24
    · simp only [read_tree_entry, hp1, hp2,
        read_pair_err (data.drop 0x10) (by simp only [List.length_drop]; omega), Except.bind]
    obtain ⟨p3, hp3⟩ := read_pair_isOk (data.drop 0x10) (by simp only [List.length_drop]; omega)
    by_cases h4 : data.length < 32
    · simp only [read_tree_entry, hp1, hp2, hp3,
        read_pair_err (data.drop 0x18) (by simp only [List.length_drop]; omega), Except.bind]
    obtain ⟨p4, hp4⟩ := read_pair_isOk (data.drop 0x18) (by simp only [List.length_drop]; omega)
    by_cases h5 : data.length < 36
    · simp only [read_tree_entry, hp1, hp2, hp3, hp4,
        byteorderU32_err (data.drop 0x20) (by simp only [List.length_drop]; omega), Except.bind]
    obtain ⟨v1, hv1⟩ := byteorderU32_isOk (data.drop 0x20) (by simp only [List.length_drop]; omega)
    simp only [read_tree_entry, hp1, hp2, hp3, hp4, hv1,
      byteorderU32_err (data.drop 0x24) (by simp only [List.length_drop]; omega), Except.bind]
  · intro hshort
    unfold pread_file_pair
    rw [if_neg (by simp only [FILE_PAIR_SIZE]; omega)]
  · intro hshort
    unfold pread_big_file_entry
    rw [if_neg (by simp only [BIG_FILE_ENTRY_SIZE]; omega)]
  · intro hshort
    unfold pread_file_entry
    rw [if_neg (by simp only [FILE_ENTRY_SIZE]; omega)]
  · intro hshort
    unfold pread_hash_bucket
    rw [if_neg (by simp only [HASH_BUCKET_SIZE]; omega)]
  · intro hlen
    refine ⟨read_pair_isOk data hlen, ?_⟩
    unfold pread_hash_bucket
    rw [if_pos (by simp only [HASH_BUCKET_SIZE]; omega)]
    exact ⟨_, rfl⟩
  · intro hlen
    unfold read_triplet
    rw [if_pos (by omega)]
    exact ⟨_, rfl⟩
  · intro hlen
    constructor
    · unfold pread_file_pair
      rw [if_pos (by simp only [FILE_PAIR_SIZE]; omega)]
      exact ⟨_, rfl⟩
    · unfold pread_file_entry
      rw [if_pos (by simp only [FILE_ENTRY_SIZE]; omega)]
      exact ⟨_, rfl⟩
  · intro hlen
    unfold pread_big_file_entry
    rw [if_pos (by simp only [BIG_FILE_ENTRY_SIZE]; omega)]
    exact ⟨_, rfl⟩
  · intro hlen
    obtain ⟨p1, hp1⟩ := read_pair_isOk data (by omega)
    obtain ⟨p2, hp2⟩ := read_pair_isOk (data.drop 0x08) (by simp only [List.length_drop]; omega)
    obtain ⟨p3, hp3⟩ := read_pair_isOk (data.drop 0x10) (by simp only [List.length_drop]; omega)
    obtain ⟨p4, hp4⟩ := read_pair_isOk (data.drop 0x18) (by simp only [List.length_drop]; omega)
    obtain ⟨v1, hv1⟩ := byteorderU32_isOk (data.drop 0x20) (by simp only [List.length_drop]; omega)
    obtain ⟨v2, hv2⟩ := byteorderU32_isOk (data.drop 0x24) (by simp only [List.length_drop]; omega)
    refine ⟨{ path := p1, ext := p2, folder := p3, file := p4,
              suboffset_index := v1, flags := v2 }, ?_⟩
    simp only [read_tree_entry, hp1, hp2, hp3, hp4, hv1, hv2, Except.bind]
  · intro hlen
    obtain ⟨p1, hp1⟩ := read_pair_isOk data (by omega)
    obtain ⟨p2, hp2⟩ := read_pair_isOk (data.drop 0x08) (by simp only [List.length_drop]; omega)
    obtain ⟨p3, hp3⟩ := read_pair_isOk (data.drop 0x10) (by simp only [List.length_drop]; omega)
    obtain ⟨p4, hp4⟩ := read_pair_isOk (data.drop 0x18) (by simp only [List.length_drop]; omega)
    obtain ⟨v1, hv1⟩ := byteorderU32_isOk (data.drop 0x20) (by simp only [List.length_drop]; omega)
    obtain ⟨v2, hv2⟩ := byteorderU32_isOk (data.drop 0x24) (by simp only [List.length_drop]; omega)
    obtain ⟨v3, hv3⟩ := byteorderU32_isOk (data.drop 0x28) (by simp only [List.length_drop]; omega)
    obtain ⟨w1, hw1⟩ := byteorderU16_isOk (data.drop 0x2c) (by simp only [List.length_drop]; omega)
    obtain ⟨w2, hw2⟩ := byteorderU16_isOk (data.drop 0x2e) (by simp only [List.length_drop]; omega)
    obtain ⟨b1, hb1⟩ := indexByte_isOk data 0x30 (by omega)
    obtain ⟨b2, hb2⟩ := indexByte_isOk data 0x31 (by omega)
    obtain ⟨b3, hb3⟩ := indexByte_isOk data 0x32 (by omega)
    obtain ⟨b4, hb4⟩ := indexByte_isOk data 0x33 (by omega)
    refine ⟨{ path := p1, folder := p2, parent := p3, hash4 := p4,
              suboffset_start := v1, num_files := v2, unk3 := v3, unk4 := w1,
              unk5 := w2, unk6 := b1, unk7 := b2, unk8 := b3, unk9 := b4 }, ?_⟩
    simp only [read_big_hash_entry, hp1, hp2, hp3, hp4, hv1, hv2, hv3,
      hw1, hw2, hb1, hb2, hb3, hb4, Except.bind]

/-- Witness for the amended C8: per-record short windows inside each
decoder's own failure range (1 byte for the pair, 10 bytes for the triplet
and the scroll records, 30 bytes for the tree entry, 50 bytes for the big
hash entry) plus the success side at a 52-byte window. -/
theorem c8_amended_short_window_witness :
    read_pair [1] = .error (.panicked "index out of range") ∧
    read_triplet (List.replicate 10 0) = .error (.panicked "index out of range") ∧
    read_big_hash_entry (List.replicate 50 0) = .error (.panicked "index out of range") ∧
    read_tree_entry (List.replicate 30 0) = .error (.panicked "index out of range") ∧
    pread_file_pair (List.replicate 10 0) = .error (.err "pread: input too short") ∧
    (∃ bh, read_big_hash_entry (List.replicate 52 0) = .ok bh) :=
  ⟨(c8_amended_short_window [1]).1 (by decide),
   (c8_amended_short_window (List.replicate 10 0)).2.1 (by decide),
   (c8_amended_short_window (List.replicate 50 0)).2.2.1 (by decide),
   (c8_amended_short_window (List.replicate 30 0)).2.2.2.1 (by decide),
   (c8_amended_short_window (List.replicate 10 0)).2.2.2.2.1 (by decide),
   (c8_amended_short_window (List.replicate 52 0)).2.2.2.2.2.2.2.2.2.2.2.2.2 (by decide)⟩

/-- C9 counterexample: with every count zero and an empty node-section
buffer, the resolver does not succeed: after the thirteen zero-length
sections the in-place `HashBucket` read fails on the empty buffer, so
`resolve` returns an error instead of succeeding. -/
theorem c9_counterexample_empty_buffer_errors :
    resolve zeroCountHeader [] = .error (.err "pread: input too short") := by
  rfl

/-- C9 amended: with every count field zero, the thirteen header-driven
suffix slices all succeed and every view starts at offset zero (the cursor
never advances from the payload start), but over an empty buffer the
resolution as a whole then fails with an error when it reads the 8-byte
`HashBucket` from the empty fourteenth view. -/
theorem c9_amended_zero_counts (h : NodeHeader) (buffer : List Nat)
    (hc : h.movie_count = 0 ∧ h.part1_count = 0 ∧ h.part2_count = 0 ∧
          h.music_file_count = 0 ∧ h.another_hash_table_size = 0 ∧
          h.folder_count = 0 ∧ h.file_count1 = 0 ∧ h.file_count2 = 0 ∧
          h.hash_folder_count = 0 ∧ h.tree_count = 0 ∧
          h.sub_files1_count = 0 ∧ h.sub_files2_count = 0 ∧
          h.file_lookup_count = 0 ∧ h.file_information_count = 0) :
    (∃ s : SectionViews, resolve13 h buffer = .ok s ∧
      s.bulkfile_category_info = buffer ∧ s.bulkfile_hash_lookup = buffer ∧
      s.bulkfiles_by_name = buffer ∧ s.bulkfile_lookup_to_fileidx = buffer ∧
      s.file_pairs = buffer ∧ s.another_hash_table = buffer ∧
      s.big_hashes = buffer ∧ s.big_files = buffer ∧
      s.folder_hash_lookup = buffer ∧ s.trees = buffer ∧
      s.sub_files1 = buffer ∧ s.sub_files2 = buffer ∧
      s.folder_to_big_hash = buffer ∧ s.file_lookup_buckets = buffer) ∧
    resolve h [] = .error (.err "pread: input too short") := by
  obtain ⟨k1, k2, k3, k4, k5, k6, k7, k8, k9, k10, k11, k12, k13, k14⟩ := hc
  constructor
  · have hlen : sectionTotal h ≤ buffer.length := by
      simp [sectionTotal, k1, k2, k3, k4, k5, k6, k7, k8, k9, k10, k11, k12]
    refine ⟨layout13 h buffer, resolve13_ok_of h buffer hlen,
      ?_, ?_, ?_, ?_, ?_, ?_, ?_, ?_, ?_, ?_, ?_, ?_, ?_, ?_⟩ <;>
      simp [layout13, k1, k2, k3, k4, k5, k6, k7, k8, k9, k10, k11, k12]
  · have hlen0 : sectionTotal h ≤ (List.nil : List Nat).length := by
      simp [sectionTotal, k1, k2, k3, k4, k5, k6, k7, k8, k9, k10, k11, k12]
    unfold resolve
    rw [resolve13_ok_of h [] hlen0]
    simp only [Except.bind]
    have hfb : (layout13 h ([] : List Nat)).file_lookup_buckets = ([] : List Nat) := by
      simp [layout13]
    rw [hfb]
    rfl

/-- Witness for the amended C9 on the concrete all-zero header. -/
theorem c9_amended_zero_counts_witness :
    (∃ s : SectionViews, resolve13 zeroCountHeader [7, 7] = .ok s ∧
      s.bulkfile_category_info = [7, 7]) ∧
    resolve zeroCountHeader [] = .error (.err "pread: input too short") := by
  obtain ⟨⟨s, hok, hf, -⟩, herr⟩ :=
    c9_amended_zero_counts zeroCountHeader [7, 7] (by decide)
  exact ⟨⟨s, hok, hf⟩, herr⟩

/-- C10 (implicit): every view the layout walk produces is a suffix of the
node-section buffer: its start offset is the cumulative sum of the
preceding declared section lengths, but its end is always the end of the
whole buffer, so consecutive views overlap (each one contains all later
views as a suffix) instead of partitioning the buffer into disjoint
length-bounded ranges. -/
theorem c10_views_are_overlapping_suffixes (h : NodeHeader) (buffer : List Nat)
    (r : ResolvedNode) (hres : resolve h buffer = .ok r) :
    (r.bulkfile_category_info = buffer ∧
      r.bulkfile_hash_lookup = buffer.drop (12 * h.movie_count) ∧
      r.bulkfiles_by_name = buffer.drop (12 * h.movie_count + 8 * h.part1_count) ∧
      r.bulkfile_lookup_to_fileidx = buffer.drop (12 * h.movie_count + 8 * h.part1_count + 12 * h.part1_count) ∧
      r.file_pairs = buffer.drop (12 * h.movie_count + 8 * h.part1_count + 12 * h.part1_count + 4 * h.part2_count) ∧
      r.another_hash_table = buffer.drop (12 * h.movie_count + 8 * h.part1_count + 12 * h.part1_count + 4 * h.part2_count + 16 * h.music_file_count) ∧
      r.big_hashes = buffer.drop (12 * h.movie_count + 8 * h.part1_count + 12 * h.part1_count + 4 * h.part2_count + 16 * h.music_file_count + 12 * h.another_hash_table_size) ∧
      r.big_files = buffer.drop (12 * h.movie_count + 8 * h.part1_count + 12 * h.part1_count + 4 * h.part2_count + 16 * h.music_file_count + 12 * h.another_hash_table_size + 52 * h.folder_count) ∧
      r.folder_hash_lookup = buffer.drop (12 * h.movie_count + 8 * h.part1_count + 12 * h.part1_count + 4 * h.part2_count + 16 * h.music_file_count + 12 * h.another_hash_table_size + 52 * h.folder_count + 28 * (h.file_count1 + h.file_count2)) ∧
      r.trees = buffer.drop (12 * h.movie_count + 8 * h.part1_count + 12 * h.part1_count + 4 * h.part2_count + 16 * h.music_file_count + 12 * h.another_hash_table_size + 52 * h.folder_count + 28 * (h.file_count1 + h.file_count2) + 8 * h.hash_folder_count) ∧
      r.sub_files1 = buffer.drop (12 * h.movie_count + 8 * h.part1_count + 12 * h.part1_count + 4 * h.part2_count + 16 * h.music_file_count + 12 * h.another_hash_table_size + 52 * h.folder_count + 28 * (h.file_count1 + h.file_count2) + 8 * h.hash_folder_count + 40 * h.tree_count) ∧
      r.sub_files2 = buffer.drop (12 * h.movie_count + 8 * h.part1_count + 12 * h.part1_count + 4 * h.part2_count + 16 * h.music_file_count + 12 * h.another_hash_table_size + 52 * h.folder_count + 28 * (h.file_count1 + h.file_count2) + 8 * h.hash_folder_count + 40 * h.tree_count + 16 * h.sub_files1_count) ∧
      r.folder_to_big_hash = buffer.drop (12 * h.movie_count + 8 * h.part1_count + 12 * h.part1_count + 4 * h.part2_count + 16 * h.music_file_count + 12 * h.another_hash_table_size + 52 * h.folder_count + 28 * (h.file_count1 + h.file_count2) + 8 * h.hash_folder_count + 40 * h.tree_count + 16 * h.sub_files1_count + 16 * h.sub_files2_count) ∧
      r.file_lookup_buckets = buffer.drop (12 * h.movie_count + 8 * h.part1_count + 12 * h.part1_count + 4 * h.part2_count + 16 * h.music_file_count + 12 * h.another_hash_table_size + 52 * h.folder_count + 28 * (h.file_count1 + h.file_count2) + 8 * h.hash_folder_count + 40 * h.tree_count + 16 * h.sub_files1_count + 16 * h.sub_files2_count + 8 * h.folder_count)) ∧
    (r.bulkfile_hash_lookup.IsSuffix r.bulkfile_category_info ∧
      r.bulkfiles_by_name.IsSuffix r.bulkfile_hash_lookup ∧
      r.bulkfile_lookup_to_fileidx.IsSuffix r.bulkfiles_by_name ∧
      r.file_pairs.IsSuffix r.bulkfile_lookup_to_fileidx ∧
      r.another_hash_table.IsSuffix r.file_pairs ∧
      r.big_hashes.IsSuffix r.another_hash_table ∧
      r.big_files.IsSuffix r.big_hashes ∧
      r.folder_hash_lookup.IsSuffix r.big_files ∧
      r.trees.IsSuffix r.folder_hash_lookup ∧
      r.sub_files1.IsSuffix r.trees ∧
      r.sub_files2.IsSuffix r.sub_files1 ∧
      r.folder_to_big_hash.IsSuffix r.sub_files2 ∧
      r.file_lookup_buckets.IsSuffix r.folder_to_big_hash ∧
      r.file_lookup.IsSuffix r.file_lookup_buckets ∧
      r.numbers.IsSuffix r.file_lookup) ∧
    r.numbers.IsSuffix buffer := by
  obtain ⟨hlen, hviews, hhb, hb1, hfl, hn1, hnums⟩ := resolve_ok_inv h buffer r hres
  refine ⟨?_, ?_, ?_⟩
  · rw [hviews]
    exact ⟨rfl, rfl, rfl, rfl, rfl, rfl, rfl, rfl, rfl, rfl, rfl, rfl, rfl, rfl⟩
  · rw [hviews] at hfl ⊢
    simp only [layout13] at hfl ⊢
    refine ⟨drop_isSuffix buffer 0 (12 * h.movie_count) (by omega), drop_isSuffix buffer _ _ (by omega),
      drop_isSuffix buffer _ _ (by omega), drop_isSuffix buffer _ _ (by omega),
      drop_isSuffix buffer _ _ (by omega), drop_isSuffix buffer _ _ (by omega),
      drop_isSuffix buffer _ _ (by omega), drop_isSuffix buffer _ _ (by omega),
      drop_isSuffix buffer _ _ (by omega), drop_isSuffix buffer _ _ (by omega),
      drop_isSuffix buffer _ _ (by omega), drop_isSuffix buffer _ _ (by omega),
      drop_isSuffix buffer _ _ (by omega), ?_, ?_⟩
    · rw [hfl]
      exact List.drop_suffix _ _
    · rw [hnums]
      exact List.drop_suffix _ _
  · have h1 : r.file_lookup_buckets.IsSuffix buffer := by
      rw [hviews]
      exact List.drop_suffix _ _
    have h2 : r.file_lookup.IsSuffix r.file_lookup_buckets := by
      rw [hfl]
      exact List.drop_suffix _ _
    have h3 : r.numbers.IsSuffix r.file_lookup := by
      rw [hnums]
      exact List.drop_suffix _ _
    exact h3.trans (h2.trans h1)

/-- Witness for C10 on an all-counts-zero header over a 16-byte buffer. -/
theorem c10_views_are_overlapping_suffixes_witness :
    ∃ r : ResolvedNode, resolve zeroCountHeader (List.replicate 16 0) = .ok r ∧
      r.bulkfile_category_info = List.replicate 16 0 ∧
      r.numbers.IsSuffix (List.replicate 16 0) := by
  obtain ⟨r, hres⟩ : ∃ r, resolve zeroCountHeader (List.replicate 16 0) = .ok r := ⟨_, rfl⟩
  obtain ⟨⟨hf, -⟩, -, hsufb⟩ :=
    c10_views_are_overlapping_suffixes zeroCountHeader (List.replicate 16 0) r hres
  exact ⟨r, hres, hf, hsufb⟩
